import Mathlib

/-!
Verification of the CommitLog core (rocketmq-store, `log_file/commit_log.rs`).

Conventions of the shallow embedding:
* Rust byte buffers (`Bytes`, `BytesMut`) are `List Nat`, each element a byte value.
* Rust `String` values are represented by the list of their UTF-8 bytes
  (`String::from_utf8_lossy` is the identity on valid UTF-8 content, which is the
  only content produced by the encoder).
* Machine integers are `Int` with explicit wrapping (`toU32`, `toSigned32`, ...)
  where the code casts or serializes.
* Fallible code (panicking `unwrap`, buffer underflow in `Buf::get_i32`,
  `unimplemented!()`) returns `Option`, with `none` for a panic.
-/

/-! ## Byte-level primitives -/

/-- Interpretation of a natural below `2 ^ 32` as a signed 32-bit integer. -/
def toSigned32 (n : Nat) : Int :=
  if n % 2 ^ 32 < 2 ^ 31 then (n % 2 ^ 32 : Int) else (n % 2 ^ 32 : Int) - 2 ^ 32

/-- Interpretation of a natural below `2 ^ 16` as a signed 16-bit integer. -/
def toSigned16 (n : Nat) : Int :=
  if n % 2 ^ 16 < 2 ^ 15 then (n % 2 ^ 16 : Int) else (n % 2 ^ 16 : Int) - 2 ^ 16

/-- Interpretation of a natural below `2 ^ 64` as a signed 64-bit integer. -/
def toSigned64 (n : Nat) : Int :=
  if n % 2 ^ 64 < 2 ^ 63 then (n % 2 ^ 64 : Int) else (n % 2 ^ 64 : Int) - 2 ^ 64

/-- Two-complement representation of an integer as an unsigned 32-bit value. -/
def toU32 (v : Int) : Nat := (v % 2 ^ 32).toNat

/-- Two-complement representation of an integer as an unsigned 16-bit value. -/
def toU16 (v : Int) : Nat := (v % 2 ^ 16).toNat

/-- Two-complement representation of an integer as an unsigned 64-bit value. -/
def toU64 (v : Int) : Nat := (v % 2 ^ 64).toNat

/-- Big-endian byte serialization of `n` on `k` bytes. -/
def beBytes : Nat → Nat → List Nat
  | 0, _ => []
  | k + 1, n => beBytes k (n / 256) ++ [n % 256]

/-- Big-endian value of a byte list. -/
def beNat (l : List Nat) : Nat := l.foldl (fun a b => a * 256 + b % 256) 0

/-- Consume `n` bytes from the front of a buffer; `none` models the panic of
`bytes::Buf` on underflow. -/
def takeBytes (n : Nat) (l : List Nat) : Option (List Nat × List Nat) :=
  if n ≤ l.length then some (l.take n, l.drop n) else none

/-- Embedding of `Buf::get_i32` (big-endian signed read). -/
def getI32 (l : List Nat) : Option (Int × List Nat) :=
  match takeBytes 4 l with
  | none => none
  | some (bs, rest) => some (toSigned32 (beNat bs), rest)

/-- Embedding of `Buf::get_i64`. -/
def getI64 (l : List Nat) : Option (Int × List Nat) :=
  match takeBytes 8 l with
  | none => none
  | some (bs, rest) => some (toSigned64 (beNat bs), rest)

/-- Embedding of `Buf::get_i16`. -/
def getI16 (l : List Nat) : Option (Int × List Nat) :=
  match takeBytes 2 l with
  | none => none
  | some (bs, rest) => some (toSigned16 (beNat bs), rest)

/-- Embedding of `Buf::get_u8`. -/
def getU8 (l : List Nat) : Option (Nat × List Nat) :=
  match takeBytes 1 l with
  | none => none
  | some (bs, rest) => some (beNat bs, rest)

/-- Big-endian serialization of an `i32` value. -/
def putI32 (v : Int) : List Nat := beBytes 4 (toU32 v)

/-- Big-endian serialization of an `i64` value. -/
def putI64 (v : Int) : List Nat := beBytes 8 (toU64 v)

/-- Big-endian serialization of an `i16` value. -/
def putI16 (v : Int) : List Nat := beBytes 2 (toU16 v)

/-! ## CRC32 (rocketmq-common `CRC32Utils::crc32`, standard IEEE polynomial) -/

/-- One byte step of the reflected IEEE CRC32. -/
def crc32Update (crc b : Nat) : Nat :=
  (List.range 8).foldl
    (fun c _ => if c % 2 = 1 then Nat.xor (c / 2) 0xEDB88320 else c / 2)
    (Nat.xor crc (b % 256))

/-- Modelled from the spec: `crc32` of rocketmq-common (the `CRC32Utils::crc32`
import), the standard IEEE CRC32 checksum used for the frame body. -/
def crc32 (l : List Nat) : Nat :=
  Nat.xor (l.foldl crc32Update 0xFFFFFFFF) 0xFFFFFFFF

/-! ## Constants -/

/-- Message magic code `daa320a7` (source, `commit_log.rs` line 65). -/
def MESSAGE_MAGIC_CODE : Int := -626843481

/-- End-of-file empty magic code `cbd43194` (source, `commit_log.rs` line 68). -/
def BLANK_MAGIC_CODE : Int := -875286124

/-- Modelled from the spec: the V2 magic code imported from rocketmq-common
`MessageDecoder` ("V2 magic as defined by the broker"), distinct from the V1
and BLANK codes. -/
def MESSAGE_MAGIC_CODE_V2 : Int := -626843480

/-- Modelled from the spec: `MessageSysFlag::BORNHOST_V6_FLAG` bit of the
`sysFlag` bitfield. -/
def BORNHOST_V6_FLAG : Int := 16

/-- Modelled from the spec: `MessageSysFlag::STOREHOSTADDRESS_V6_FLAG` bit. -/
def STOREHOSTADDRESS_V6_FLAG : Int := 32

/-- Modelled from the spec: `MessageSysFlag::TRANSACTION_NOT_TYPE`. -/
def TRANSACTION_NOT_TYPE : Int := 0

/-- Modelled from the spec: `MessageSysFlag::TRANSACTION_PREPARED_TYPE`
(half message). -/
def TRANSACTION_PREPARED_TYPE : Int := 4

/-- Modelled from the spec: `MessageSysFlag::TRANSACTION_COMMIT_TYPE`. -/
def TRANSACTION_COMMIT_TYPE : Int := 8

/-- Modelled from the spec: `MessageSysFlag::TRANSACTION_ROLLBACK_TYPE`
(also the transaction-type mask). -/
def TRANSACTION_ROLLBACK_TYPE : Int := 12

/-- Modelled from the spec: `MessageSysFlag::INNER_BATCH_FLAG` bit. -/
def INNER_BATCH_FLAG : Int := 128

/-- Modelled from the spec: `MessageSysFlag::get_transaction_value`, the
transaction bits of a `sysFlag`. -/
def get_transaction_value (flag : Int) : Int := Int.land flag TRANSACTION_ROLLBACK_TYPE

/-- Modelled from the spec: `MessageSysFlag::check` tests a bit of `sysFlag`. -/
def sys_flag_check (flag bit : Int) : Bool := Int.land flag bit = bit

/-- Modelled from the spec: `MessageDecoder::MESSAGE_MAGIC_CODE_POSITION`, the
byte offset of `magicCode` in a frame (after the 4-byte `totalSize`). -/
def MESSAGE_MAGIC_CODE_POSITION : Nat := 4

/-- Modelled from the spec: `MessageDecoder::SYSFLAG_POSITION`, the byte offset
of `sysFlag` in a frame (per the frame layout of the spec). -/
def SYSFLAG_POSITION : Nat := 4 + 4 + 4 + 4 + 4 + 8 + 8

/-- ASCII bytes of a plain string literal (used for property key names). -/
def asciiBytes (s : String) : List Nat := s.data.map Char.toNat

/-- Modelled from the spec: `MessageConst::PROPERTY_KEYS`. -/
def PROPERTY_KEYS : List Nat := asciiBytes "KEYS"

/-- Modelled from the spec: `MessageConst::PROPERTY_UNIQ_CLIENT_MESSAGE_ID_KEYIDX`. -/
def PROPERTY_UNIQ_CLIENT_MESSAGE_ID_KEYIDX : List Nat := asciiBytes "UNIQ_KEY"

/-- Modelled from the spec: `MessageConst::DUP_INFO`. -/
def DUP_INFO : List Nat := asciiBytes "DUP_INFO"

/-- Modelled from the spec: `MessageConst::PROPERTY_TAGS`. -/
def PROPERTY_TAGS : List Nat := asciiBytes "TAGS"

/-- Modelled from the spec: `MessageConst::PROPERTY_INNER_NUM`. -/
def PROPERTY_INNER_NUM : List Nat := asciiBytes "INNER_NUM"

/-- Modelled from the spec: `MessageConst::PROPERTY_INNER_BASE`. -/
def PROPERTY_INNER_BASE : List Nat := asciiBytes "INNER_BASE"

/-- Modelled from the spec: `MessageConst::PROPERTY_CRC32`. -/
def PROPERTY_CRC32 : List Nat := asciiBytes "PROPERTY_CRC32"

/-! ## Message version -/

/-- Message version selecting the topic-length width (V1: one byte, V2: two). -/
inductive MessageVersion where
  | V1
  | V2
deriving DecidableEq, Repr

/-- Modelled from the spec: `MessageVersion::get_topic_length` reads the topic
length: one unsigned byte for V1, a big-endian `i16` cast to `usize` for V2. -/
def get_topic_length (v : MessageVersion) (l : List Nat) : Option (Nat × List Nat) :=
  match v with
  | .V1 => getU8 l
  | .V2 =>
    match getI16 l with
    | none => none
    | some (n, rest) => some (if n < 0 then (2 ^ 64 + n).toNat else n.toNat, rest)

/-! ## Property encoding -/

/-- Split a byte list on a separator byte; yields one piece more than the
number of separators, like `str::split`. -/
def splitOnByte (sep : Nat) : List Nat → List (List Nat)
  | [] => [[]]
  | b :: rest =>
    if b = sep then [] :: splitOnByte sep rest
    else
      match splitOnByte sep rest with
      | [] => [[b]]
      | h :: t => (b :: h) :: t

/-- Split one `name\x01value` item into a pair, if the separator occurs. -/
def splitProperty (item : List Nat) : Option (List Nat × List Nat) :=
  match item.findIdx? (fun b => b = 1) with
  | none => none
  | some i => some (item.take i, item.drop (i + 1))

/-- Modelled from the spec: `MessageDecoder::string_to_message_properties`
parses the domain property encoding (`name \x01 value \x02` items) into an
ordered mapping. -/
def string_to_message_properties (content : List Nat) : List (List Nat × List Nat) :=
  (splitOnByte 2 content).foldr
    (fun item acc =>
      match splitProperty item with
      | none => acc
      | some p => p :: acc)
    []

/-- Modelled from the spec: serialization of a property mapping into the
domain property encoding (used by the frame encoder). -/
def message_properties_to_string (props : List (List Nat × List Nat)) : List Nat :=
  props.foldr (fun p acc => p.1 ++ [1] ++ p.2 ++ [2] ++ acc) []

/-- Modelled from the spec: a simple integer hash of a byte string, standing
for `tags_string2tags_code` ("tagsCode (hash/int of tag string)"). -/
def tags_string2tags_code (tags : Option (List Nat)) : Int :=
  match tags with
  | none => 0
  | some t =>
    if t = [] then 0
    else toSigned32 (t.foldl (fun h b => (h * 31 + b) % 2 ^ 32) 0)

/-- Parse a decimal digit-byte list (returns `none` on any non-digit). -/
def parseDigits : List Nat → Option Nat
  | [] => some 0
  | b :: rest =>
    if 48 ≤ b ∧ b ≤ 57 then
      match parseDigits rest with
      | none => none
      | some n => some ((b - 48) * 10 ^ rest.length + n)
    else none

/-- Modelled from the spec: `str::parse::<i16>` on a byte string. -/
def parseI16 (l : List Nat) : Option Int :=
  match l with
  | 45 :: rest =>
    if rest = [] then none
    else
      match parseDigits rest with
      | none => none
      | some n => if (n : Int) ≤ 2 ^ 15 then some (-(n : Int)) else none
  | _ =>
    if l = [] then none
    else
      match parseDigits l with
      | none => none
      | some n => if (n : Int) < 2 ^ 15 then some (n : Int) else none

/-! ## Core data structures -/

/-- Modelled from the spec: the `DispatchRequest` record, the parsed in-memory
summary of one frame (spec section 3). -/
structure DispatchRequest where
  success : Bool
  topic : List Nat
  queue_id : Int
  commit_log_offset : Int
  msg_size : Int
  tags_code : Int
  store_timestamp : Int
  consume_queue_offset : Int
  keys : List Nat
  uniq_key : Option (List Nat)
  sys_flag : Int
  prepared_transaction_offset : Int
  properties_map : Option (List (List Nat × List Nat))
  msg_base_offset : Int
  batch_size : Int
deriving DecidableEq, Repr

/-- Modelled from the spec: `DispatchRequest::default()` (all fields zeroed). -/
def DispatchRequest.dfault : DispatchRequest where
  success := false
  topic := []
  queue_id := 0
  commit_log_offset := 0
  msg_size := 0
  tags_code := 0
  store_timestamp := 0
  consume_queue_offset := 0
  keys := []
  uniq_key := none
  sys_flag := 0
  prepared_transaction_offset := 0
  properties_map := none
  msg_base_offset := 0
  batch_size := 0

/-- Broker role (`config::broker_role::BrokerRole`). -/
inductive BrokerRole where
  | Slave
  | AsyncMaster
  | SyncMaster
deriving DecidableEq, Repr

/-- Relevant fields of `MessageStoreConfig` consumed by the CommitLog core. -/
structure MessageStoreConfig where
  duplication_enable : Bool
  enabled_append_prop_crc : Bool
  auto_message_version_on_topic_len : Bool
  force_verify_prop_crc : Bool
  check_crc_on_recover : Bool
  message_index_enable : Bool
  message_index_safe : Bool
  enable_rocksdb_store : Bool
  broker_role : BrokerRole
  in_sync_replicas : Nat
  mapped_file_size_commit_log : Nat
  max_message_size : Nat
deriving DecidableEq, Repr

/-- Relevant fields of `BrokerConfig` consumed by the CommitLog core. -/
structure BrokerConfig where
  enable_controller_mode : Bool
  enable_slave_acting_master : Bool
  duplication_enable : Bool
deriving DecidableEq, Repr

/-- Consume-queue type of a topic (`CQType`); only the batch discriminator
matters to the CommitLog. -/
inductive CQType where
  | SimpleCQ
  | BatchCQ
deriving DecidableEq, Repr

/-! ## Frame length (`MessageExtEncoder::cal_msg_length`) -/

/-- Modelled from the spec: `MessageExtEncoder::cal_msg_length`, the frame
length computed from the byte layout of spec section 6. -/
def cal_msg_length (version : MessageVersion) (sys_flag body_len topic_len properties_length : Int) :
    Int :=
  let born_host_length : Int := if Int.land sys_flag BORNHOST_V6_FLAG = 0 then 8 else 20
  let store_host_length : Int := if Int.land sys_flag STOREHOSTADDRESS_V6_FLAG = 0 then 8 else 20
  let topic_width : Int := match version with | .V1 => 1 | .V2 => 2
  4 + 4 + 4 + 4 + 4 + 8 + 8 + 4 + 8 + born_host_length + 8 + store_host_length + 4 + 8 + 4
    + body_len + topic_width + topic_len + 2 + properties_length

/-! ## Frame encoder (`MessageExtEncoder::encode`) -/

/-- Logical content of one on-disk frame, the encoder input. -/
structure FrameMsg where
  version : MessageVersion
  body_crc : Int
  queue_id : Int
  flag : Int
  queue_offset : Int
  physic_offset : Int
  sys_flag : Int
  born_timestamp : Int
  born_host : List Nat
  store_timestamp : Int
  store_host : List Nat
  reconsume_times : Int
  prepared_transaction_offset : Int
  body : List Nat
  topic : List Nat
  properties : List Nat
deriving DecidableEq, Repr

/-- Magic code written for a message version. -/
def magicOfVersion : MessageVersion → Int
  | .V1 => MESSAGE_MAGIC_CODE
  | .V2 => MESSAGE_MAGIC_CODE_V2

/-- Topic-length bytes written for a message version. -/
def putTopicLength : MessageVersion → Nat → List Nat
  | .V1, n => [n % 256]
  | .V2, n => beBytes 2 n

/-- Modelled from the spec: the frame encoder body with an explicit
`totalSize` field value, laying out the bytes per spec section 6. -/
def encodeFrameRaw (total_size : Int) (m : FrameMsg) : List Nat :=
  putI32 total_size ++
  putI32 (magicOfVersion m.version) ++
  putI32 m.body_crc ++
  putI32 m.queue_id ++
  putI32 m.flag ++
  putI64 m.queue_offset ++
  putI64 m.physic_offset ++
  putI32 m.sys_flag ++
  putI64 m.born_timestamp ++
  m.born_host ++
  putI64 m.store_timestamp ++
  m.store_host ++
  putI32 m.reconsume_times ++
  putI64 m.prepared_transaction_offset ++
  putI32 (m.body.length : Int) ++
  m.body ++
  putTopicLength m.version m.topic.length ++
  m.topic ++
  putI16 (m.properties.length : Int) ++
  m.properties

/-- Modelled from the spec: `MessageExtEncoder::encode`, writing the frame
with its self-describing `totalSize` computed by `cal_msg_length`. -/
def encodeFrame (m : FrameMsg) : List Nat :=
  encodeFrameRaw
    (cal_msg_length m.version m.sys_flag (m.body.length : Int) (m.topic.length : Int)
      (m.properties.length : Int))
    m

/-- Well-formedness of an encoder input: host widths match the `sysFlag` bits,
lengths fit their on-disk widths, and `sysFlag` is a 32-bit value. -/
def FrameMsg.Valid (m : FrameMsg) : Prop :=
  -2 ^ 31 ≤ m.sys_flag ∧ m.sys_flag < 2 ^ 31 ∧
  m.born_host.length = (if Int.land m.sys_flag BORNHOST_V6_FLAG = 0 then 8 else 20) ∧
  m.store_host.length = (if Int.land m.sys_flag STOREHOSTADDRESS_V6_FLAG = 0 then 8 else 20) ∧
  m.body.length < 2 ^ 31 ∧
  (m.version = .V1 → m.topic.length < 256) ∧
  (m.version = .V2 → m.topic.length < 2 ^ 15) ∧
  m.properties.length < 2 ^ 15

/-! ## Frame decoder (`check_message_and_return_size`, source lines 788-950) -/

/-- Embedding of `set_batch_size_if_needed` (source lines 952-971); the
`parse().unwrap()` calls are panics, hence `Option`. -/
def set_batch_size_if_needed (properties_map : List (List Nat × List Nat))
    (dispatch_request : DispatchRequest) : Option DispatchRequest :=
  if properties_map ≠ [] ∧ (properties_map.lookup PROPERTY_INNER_NUM).isSome ∧
      (properties_map.lookup PROPERTY_INNER_BASE).isSome then
    match (properties_map.lookup PROPERTY_INNER_BASE).bind parseI16,
        (properties_map.lookup PROPERTY_INNER_NUM).bind parseI16 with
    | some base, some num =>
      some { dispatch_request with msg_base_offset := base, batch_size := num }
    | _, _ => none
  else some dispatch_request

/-- Embedding of the topic, properties, dup-info and length-check stage of
`check_message_and_return_size` (source lines 858-949); the reserved
property-CRC block (source lines 907-910) is a no-op. The prefix values the
final `DispatchRequest` carries are passed through as arguments. -/
def check_message_topic_props (total_size : Int) (message_version : MessageVersion)
    (sys_flag body_len queue_id queue_offset physic_offset store_timestamp
      prepared_transaction_offset : Int) (bytes : List Nat) (check_dup_info : Bool) :
    Option DispatchRequest :=
  match get_topic_length message_version bytes with
  | none => none
  | some (topic_len, bytes) =>
  match takeBytes topic_len bytes with
  | none => none
  | some (topic_bytes, bytes) =>
  let topic := topic_bytes
  match getI16 bytes with
  | none => none
  | some (properties_length, bytes) =>
  match
    (if properties_length > 0 then
      match takeBytes properties_length.toNat bytes with
      | none => none
      | some (_properties, _bytes) =>
        -- NOTE: the source parses the property content from `topic_bytes`,
        -- not from the `properties` bytes it just copied (line 864).
        let properties_content := topic_bytes
        let properties_map := string_to_message_properties properties_content
        let keys := properties_map.lookup PROPERTY_KEYS
        let uniq_key := properties_map.lookup PROPERTY_UNIQ_CLIENT_MESSAGE_ID_KEYIDX
        if check_dup_info then
          match properties_map.lookup DUP_INFO with
          | none => some (Sum.inl ())
          | some content =>
            if (splitOnByte 95 content).length ≠ 2 then some (Sum.inl ())
            else
              some (Sum.inr (tags_string2tags_code (properties_map.lookup PROPERTY_TAGS),
                keys.getD [], uniq_key, properties_map))
        else
          some (Sum.inr (tags_string2tags_code (properties_map.lookup PROPERTY_TAGS),
            keys.getD [], uniq_key, properties_map))
    else some (Sum.inr (0, [], none, [])) :
      Option (Sum Unit (Int × List Nat × Option (List Nat) × List (List Nat × List Nat)))) with
  | none => none
  | some (Sum.inl ()) => some { DispatchRequest.dfault with msg_size := -1, success := false }
  | some (Sum.inr (tags_code, keys, uniq_key, properties_map)) =>
  let read_length := cal_msg_length message_version sys_flag body_len (topic_len : Int)
    properties_length
  if total_size ≠ read_length then
    some { DispatchRequest.dfault with msg_size := total_size, success := false }
  else
    match
      set_batch_size_if_needed properties_map
        { DispatchRequest.dfault with
          success := true
          topic := topic
          queue_id := queue_id
          commit_log_offset := physic_offset
          msg_size := total_size
          tags_code := tags_code
          store_timestamp := store_timestamp
          consume_queue_offset := queue_offset
          keys := keys
          uniq_key := uniq_key
          sys_flag := sys_flag
          prepared_transaction_offset := prepared_transaction_offset } with
    | none => none
    | some dispatch_request =>
      some { dispatch_request with properties_map := some properties_map }

/-- Embedding of the part of `check_message_and_return_size` after the magic
dispatch (source lines 815-857), reading the fixed prefix and the body and
running the CRC check, then handing over to `check_message_topic_props`. -/
def check_message_body (total_size : Int) (message_version : MessageVersion)
    (bytes : List Nat) (check_crc check_dup_info read_body : Bool)
    (message_store_config : MessageStoreConfig) : Option DispatchRequest :=
  match getI32 bytes with
  | none => none
  | some (body_crc, bytes) =>
  match getI32 bytes with
  | none => none
  | some (queue_id, bytes) =>
  match getI32 bytes with
  | none => none
  | some (_flag, bytes) =>
  match getI64 bytes with
  | none => none
  | some (queue_offset, bytes) =>
  match getI64 bytes with
  | none => none
  | some (physic_offset, bytes) =>
  match getI32 bytes with
  | none => none
  | some (sys_flag, bytes) =>
  match getI64 bytes with
  | none => none
  | some (_born_time_stamp, bytes) =>
  match takeBytes (if Int.land sys_flag BORNHOST_V6_FLAG = 0 then 8 else 20) bytes with
  | none => none
  | some (_born_host, bytes) =>
  match getI64 bytes with
  | none => none
  | some (store_timestamp, bytes) =>
  match takeBytes (if Int.land sys_flag STOREHOSTADDRESS_V6_FLAG = 0 then 8 else 20) bytes with
  | none => none
  | some (_store_host, bytes) =>
  match getI32 bytes with
  | none => none
  | some (_reconsume_times, bytes) =>
  match getI64 bytes with
  | none => none
  | some (prepared_transaction_offset, bytes) =>
  match getI32 bytes with
  | none => none
  | some (body_len, bytes) =>
  match
    (if body_len > 0 then
      (if read_body then
        match takeBytes body_len.toNat bytes with
        | none => none
        | some (body, bytes) =>
          if check_crc ∧ ¬message_store_config.force_verify_prop_crc then
            (if crc32 body ≠ toU32 body_crc then some (Sum.inl ()) else some (Sum.inr bytes))
          else some (Sum.inr bytes)
      else
        match takeBytes body_len.toNat bytes with
        | none => none
        | some (_, bytes) => some (Sum.inr bytes))
    else some (Sum.inr bytes) : Option (Sum Unit (List Nat))) with
  | none => none
  | some (Sum.inl ()) => some { DispatchRequest.dfault with msg_size := -1, success := false }
  | some (Sum.inr bytes) =>
    check_message_topic_props total_size message_version sys_flag body_len queue_id
      queue_offset physic_offset store_timestamp prepared_transaction_offset bytes
      check_dup_info

/-- Embedding of `check_message_and_return_size` (source lines 788-950): the
magic-code dispatch followed by `check_message_body`. -/
def check_message_and_return_size (bytes : List Nat) (check_crc check_dup_info read_body : Bool)
    (message_store_config : MessageStoreConfig) : Option DispatchRequest :=
  match getI32 bytes with
  | none => none
  | some (total_size, bytes) =>
  match getI32 bytes with
  | none => none
  | some (magic_code, bytes) =>
  if magic_code = MESSAGE_MAGIC_CODE ∨ magic_code = MESSAGE_MAGIC_CODE_V2 then
    check_message_body total_size
      (if magic_code = MESSAGE_MAGIC_CODE then .V1 else .V2)
      bytes check_crc check_dup_info read_body message_store_config
  else if magic_code = BLANK_MAGIC_CODE then
    some { DispatchRequest.dfault with msg_size := 0, success := true }
  else
    some { DispatchRequest.dfault with msg_size := -1, success := false }

/-! ## Broker-side message model (`MessageExtBrokerInner`) -/

/-- Fields of `MessageExtBrokerInner` touched by the CommitLog core. -/
structure MessageExtBrokerInner where
  topic : List Nat
  queue_id : Int
  sys_flag : Int
  flag : Int
  born_timestamp : Int
  born_host : List Nat
  born_host_ipv6 : Bool
  store_host : List Nat
  store_host_ipv6 : Bool
  reconsume_times : Int
  prepared_transaction_offset : Int
  body : Option (List Nat)
  body_crc : Nat
  store_timestamp : Int
  queue_offset : Int
  properties : List (List Nat × List Nat)
  version : MessageVersion
  wait_store_msg_ok : Bool
deriving DecidableEq, Repr

/-- Embedding of `delete_property`. -/
def MessageExtBrokerInner.delete_property (msg : MessageExtBrokerInner) (name : List Nat) :
    MessageExtBrokerInner :=
  { msg with properties := msg.properties.filter (fun p => p.1 ≠ name) }

/-- Embedding of `with_version`. -/
def MessageExtBrokerInner.with_version (msg : MessageExtBrokerInner) (v : MessageVersion) :
    MessageExtBrokerInner :=
  { msg with version := v }

/-- Embedding of `with_born_host_v6_flag` (sets the `sysFlag` bit). -/
def MessageExtBrokerInner.with_born_host_v6_flag (msg : MessageExtBrokerInner) :
    MessageExtBrokerInner :=
  { msg with sys_flag := Int.lor msg.sys_flag BORNHOST_V6_FLAG }

/-- Embedding of `with_store_host_v6_flag`. -/
def MessageExtBrokerInner.with_store_host_v6_flag (msg : MessageExtBrokerInner) :
    MessageExtBrokerInner :=
  { msg with sys_flag := Int.lor msg.sys_flag STOREHOSTADDRESS_V6_FLAG }

/-- Embedding of `get_property`. -/
def MessageExtBrokerInner.get_property (msg : MessageExtBrokerInner) (name : List Nat) :
    Option (List Nat) :=
  msg.properties.lookup name

/-! ## Mapped files, checkpoint and the CommitLog state -/

/-- Store checkpoint collaborator (spec section 3). -/
structure StoreCheckpoint where
  min_timestamp : Nat
  min_timestamp_index : Nat
  confirm_phy_offset : Nat
deriving DecidableEq, Repr

/-- One segment (`DefaultMappedFile`): its base offset, wrote position,
availability and mapped content. -/
structure MappedFileModel where
  file_from_offset : Nat
  wrote_position : Nat
  available : Bool
  bytes : List Nat
deriving DecidableEq, Repr

/-- Modelled from the spec: `MappedFile::get_bytes` returns `len` bytes at
`pos` of the mapped region, or `None` when out of range. -/
def mf_get_bytes (mf : MappedFileModel) (pos len : Nat) : Option (List Nat) :=
  if pos + len ≤ mf.bytes.length then some ((mf.bytes.drop pos).take len) else none

/-- Big-endian `i32` read at a segment position with the zeroed fallback of
`unwrap_or` in `is_mapped_file_matched_recover`. -/
def readI32At (mf : MappedFileModel) (pos : Nat) : Int :=
  toSigned32 (beNat ((mf_get_bytes mf pos 4).getD [0, 0, 0, 0]))

/-- Big-endian `i64` read at a segment position with the zeroed fallback. -/
def readI64At (mf : MappedFileModel) (pos : Nat) : Int :=
  toSigned64 (beNat ((mf_get_bytes mf pos 8).getD [0, 0, 0, 0, 0, 0, 0, 0]))

/-- State of the `CommitLog` structure (source lines 150-164); the
consume-queue store and topic-config table collaborators are capabilities
modelled as functions. -/
structure CommitLog where
  message_store_config : MessageStoreConfig
  broker_config : BrokerConfig
  enabled_append_prop_crc : Bool
  confirm_offset : Int
  store_checkpoint : StoreCheckpoint
  segments : List MappedFileModel
  topic_config_table : List Nat → Option CQType
  queue_offset_table : List Nat × Int → Int

/-! ## Query API -/

/-- Modelled from the spec: `MappedFileQueue::get_first_mapped_file`. -/
def get_first_mapped_file (segments : List MappedFileModel) : Option MappedFileModel :=
  segments.head?

/-- Modelled from the spec: `MappedFileQueue::get_max_offset` is
`lastFileFromOffset + wrotePosition`, or 0 when empty. -/
def get_max_offset_mfq (segments : List MappedFileModel) : Int :=
  match segments.getLast? with
  | none => 0
  | some mf => (mf.file_from_offset : Int) + (mf.wrote_position : Int)

/-- Embedding of `CommitLog::get_max_offset` (source lines 741-743). -/
def CommitLog.get_max_offset (cl : CommitLog) : Int :=
  get_max_offset_mfq cl.segments

/-- Embedding of `CommitLog::roll_next_file` (source lines 758-761); `%` is
the Rust truncated remainder. -/
def CommitLog.roll_next_file (cl : CommitLog) (offset : Int) : Int :=
  let mapped_file_size : Int := (cl.message_store_config.mapped_file_size_commit_log : Int)
  offset + mapped_file_size - Int.tmod offset mapped_file_size

/-- Embedding of `CommitLog::get_min_offset` (source lines 745-756). -/
def CommitLog.get_min_offset (cl : CommitLog) : Int :=
  match get_first_mapped_file cl.segments with
  | none => -1
  | some mapped_file =>
    if mapped_file.available then (mapped_file.file_from_offset : Int)
    else cl.roll_next_file (mapped_file.file_from_offset : Int)

/-- Embedding of `CommitLog::get_confirm_offset` (source lines 583-590);
`none` models the `unimplemented!()` panic in controller mode. -/
def CommitLog.get_confirm_offset (cl : CommitLog) : Option Int :=
  if cl.broker_config.enable_controller_mode then none
  else if cl.broker_config.duplication_enable then some cl.confirm_offset
  else some cl.get_max_offset

/-! ## Append engine -/

/-- Append-callback outcome (`AppendMessageStatus`). -/
inductive AppendMessageStatus where
  | PutOk
  | EndOfFile
  | MessageSizeExceeded
  | PropertiesSizeExceeded
  | UnknownError
deriving DecidableEq, Repr

/-- Result statuses surfaced by `put_message` (`PutMessageStatus`). -/
inductive PutMessageStatus where
  | PutOk
  | FlushDiskTimeout
  | FlushSlaveTimeout
  | SlaveNotAvailable
  | CreateMappedFileFailed
  | MessageIllegal
  | UnknownError
deriving DecidableEq, Repr

/-- Embedding of `need_handle_ha` (source lines 410-427). -/
def need_handle_ha (cl : CommitLog) (msg_inner : MessageExtBrokerInner) : Bool :=
  if ¬msg_inner.wait_store_msg_ok then false
  else if cl.message_store_config.duplication_enable then false
  else if cl.message_store_config.broker_role ≠ BrokerRole.SyncMaster then false
  else true

/-- Modelled from the spec: `ConsumeQueueStore::assign_queue_offset` stamps
`queueOffset` with the current per-(topic, queueId) counter. -/
def assign_queue_offset (table : List Nat × Int → Int) (msg : MessageExtBrokerInner) :
    MessageExtBrokerInner :=
  { msg with queue_offset := table (msg.topic, msg.queue_id) }

/-- Embedding of `CommitLog::assign_offset` (source lines 391-398). -/
def assign_offset (table : List Nat × Int → Int) (msg : MessageExtBrokerInner) :
    MessageExtBrokerInner :=
  let tran_type := get_transaction_value msg.sys_flag
  if tran_type = TRANSACTION_NOT_TYPE ∨ tran_type = TRANSACTION_COMMIT_TYPE then
    assign_queue_offset table msg
  else msg

/-- Modelled from the spec: `ConsumeQueueStore::increase_queue_offset`
increments the per-(topic, queueId) counter by `message_num`. -/
def increase_queue_offset (table : List Nat × Int → Int) (msg : MessageExtBrokerInner)
    (message_num : Int) : List Nat × Int → Int :=
  fun k => if k = (msg.topic, msg.queue_id) then table k + message_num else table k

/-- Embedding of `CommitLog::increase_offset` (source lines 381-389). -/
def increase_offset (table : List Nat × Int → Int) (msg : MessageExtBrokerInner)
    (message_num : Int) : List Nat × Int → Int :=
  let tran_type := get_transaction_value msg.sys_flag
  if tran_type = TRANSACTION_NOT_TYPE ∨ tran_type = TRANSACTION_COMMIT_TYPE then
    increase_queue_offset table msg message_num
  else table

/-- Embedding of `get_cq_type` (source lines 121-127); the table lookup with
the `QueueTypeUtils` default is modelled from the spec. -/
def get_cq_type (topic_config_table : List Nat → Option CQType)
    (msg_inner : MessageExtBrokerInner) : CQType :=
  (topic_config_table msg_inner.topic).getD CQType.SimpleCQ

/-- Embedding of `get_message_num` (source lines 129-148). -/
def get_message_num (topic_config_table : List Nat → Option CQType)
    (msg_inner : MessageExtBrokerInner) : Int :=
  let message_num : Int := 1
  let cq_type := get_cq_type topic_config_table msg_inner
  if sys_flag_check msg_inner.sys_flag INNER_BATCH_FLAG ∨ cq_type = CQType.BatchCQ then
    match msg_inner.get_property PROPERTY_INNER_NUM with
    | some num => (parseI16 num).getD 1
    | none => message_num
  else message_num

/-- Embedding of the post-lock offset bump of `put_message` (source lines
371-378): on `PutOk` the per-queue counter is advanced via `increase_offset`,
otherwise it is untouched. -/
def put_message_post_process (topic_config_table : List Nat → Option CQType)
    (table : List Nat × Int → Int) (status : PutMessageStatus)
    (msg : MessageExtBrokerInner) : List Nat × Int → Int :=
  if status = PutMessageStatus.PutOk then
    increase_offset table msg (get_message_num topic_config_table msg)
  else table

/-- Conversion of a broker message into the encoder input frame. -/
def msg_to_frame (msg : MessageExtBrokerInner) (body : List Nat) : FrameMsg where
  version := msg.version
  body_crc := toSigned32 msg.body_crc
  queue_id := msg.queue_id
  flag := msg.flag
  queue_offset := msg.queue_offset
  physic_offset := 0
  sys_flag := msg.sys_flag
  born_timestamp := msg.born_timestamp
  born_host := msg.born_host
  store_timestamp := msg.store_timestamp
  store_host := msg.store_host
  reconsume_times := msg.reconsume_times
  prepared_transaction_offset := msg.prepared_transaction_offset
  body := body
  topic := msg.topic
  properties := message_properties_to_string msg.properties

/-- Modelled from the spec: `encode_message_ext` produces the frame buffer and
short-circuits with `MessageIllegal` when the encoded frame exceeds the
configured cap. -/
def encode_message_ext (cfg : MessageStoreConfig) (msg : MessageExtBrokerInner)
    (body : List Nat) : Option PutMessageStatus × List Nat :=
  let buf := encodeFrame (msg_to_frame msg body)
  if buf.length > cfg.max_message_size then (some PutMessageStatus.MessageIllegal, buf)
  else (none, buf)

/-- Embedding of the pre-lock phase of `put_message` (source lines 223-291,
everything before `put_message_lock.lock()`): timestamp stamping, the body CRC
(whose `unwrap` of a `None` body is a panic, hence `Option`), property-CRC
removal, version and host-flag selection, the HA-mode panics, queue-offset
assignment and frame encoding. `Sum.inl` is the encoder short-circuit result. -/
def put_message_prepare (cl : CommitLog) (now : Int) (msg : MessageExtBrokerInner) :
    Option (Sum PutMessageStatus (MessageExtBrokerInner × List Nat)) :=
  let msg := if ¬cl.message_store_config.duplication_enable then
    { msg with store_timestamp := now } else msg
  match msg.body with
  | none => none
  | some body =>
  let msg := { msg with body_crc := crc32 body }
  let msg := if ¬cl.enabled_append_prop_crc then msg.delete_property PROPERTY_CRC32 else msg
  let msg := msg.with_version MessageVersion.V1
  let msg := if cl.message_store_config.auto_message_version_on_topic_len ∧
      127 < msg.topic.length then msg.with_version MessageVersion.V2 else msg
  let msg := if msg.born_host_ipv6 then msg.with_born_host_v6_flag else msg
  let msg := if msg.store_host_ipv6 then msg.with_store_host_v6_flag else msg
  if need_handle_ha cl msg ∧ cl.broker_config.enable_controller_mode then none
  else if need_handle_ha cl msg ∧ cl.broker_config.enable_slave_acting_master then none
  else
    let need_assign_offset := ¬(cl.message_store_config.duplication_enable ∧
      cl.message_store_config.broker_role ≠ BrokerRole.Slave)
    let msg := if need_assign_offset then assign_offset cl.queue_offset_table msg else msg
    match encode_message_ext cl.message_store_config msg body with
    | (some result, _) => some (Sum.inl result)
    | (none, buf) => some (Sum.inr (msg, buf))

/-- Embedding of the in-lock append section of `put_message` (source lines
299-358). The mapped-file allocator and the append callback live outside the
core, so their outcomes are inputs: `alloc_ok` is the success of the initial
`get_last_mapped_file_mut_start_offset` call, `rollover_alloc_ok` of the
end-of-file one, `first_append` and `retry_append` the successive
`append_message` results. Returns the `PutMessageStatus` produced by the
match together with the number of `append_message` invocations. -/
def put_message_append_section (have_last_file last_file_full alloc_ok rollover_alloc_ok : Bool)
    (first_append retry_append : AppendMessageStatus) : PutMessageStatus × Nat :=
  let have_file := if ¬have_last_file ∨ last_file_full then alloc_ok else true
  if ¬have_file then (PutMessageStatus.CreateMappedFileFailed, 0)
  else
    match first_append with
    | AppendMessageStatus.PutOk => (PutMessageStatus.PutOk, 1)
    | AppendMessageStatus.EndOfFile =>
      if ¬rollover_alloc_ok then (PutMessageStatus.CreateMappedFileFailed, 1)
      else
        match retry_append with
        | AppendMessageStatus.PutOk => (PutMessageStatus.PutOk, 2)
        | _ => (PutMessageStatus.UnknownError, 2)
    | AppendMessageStatus.MessageSizeExceeded => (PutMessageStatus.MessageIllegal, 1)
    | AppendMessageStatus.PropertiesSizeExceeded => (PutMessageStatus.MessageIllegal, 1)
    | AppendMessageStatus.UnknownError => (PutMessageStatus.UnknownError, 1)

/-! ## Segment trust predicate and recovery engine -/

/-- Embedding of `is_mapped_file_matched_recover` (source lines 973-1026);
`none` models the `unimplemented!()` panic of the rocksdb branch. -/
def is_mapped_file_matched_recover (message_store_config : MessageStoreConfig)
    (mapped_file : MappedFileModel) (store_checkpoint : StoreCheckpoint) : Option Bool :=
  let magic_code := readI32At mapped_file MESSAGE_MAGIC_CODE_POSITION
  if magic_code ≠ MESSAGE_MAGIC_CODE ∧ magic_code ≠ MESSAGE_MAGIC_CODE_V2 then some false
  else if message_store_config.enable_rocksdb_store then none
  else
    let sys_flag := readI32At mapped_file SYSFLAG_POSITION
    let born_host_length : Nat := if Int.land sys_flag BORNHOST_V6_FLAG = 0 then 8 else 20
    let msg_store_time_pos := 4 + 4 + 4 + 4 + 4 + 8 + 8 + 4 + 8 + born_host_length
    let store_timestamp := readI64At mapped_file msg_store_time_pos
    if store_timestamp = 0 then some false
    else if message_store_config.message_index_enable ∧
        message_store_config.message_index_safe then
      if store_timestamp ≤ toSigned64 store_checkpoint.min_timestamp_index then some true
      else some false
    else if store_timestamp ≤ toSigned64 store_checkpoint.min_timestamp then some true
    else some false

/-- Embedding of `get_simple_message_bytes` (source lines 561-580). -/
def get_simple_message_bytes (mapped_file : MappedFileModel) (position : Nat) :
    Option (List Nat) × Nat :=
  match mf_get_bytes mapped_file position 4 with
  | none => (none, 0)
  | some inner =>
    let size := toSigned32 (beNat inner)
    if size ≤ 0 then (none, 0)
    else (mf_get_bytes mapped_file position size.toNat, size.toNat)

/-- Embedding of `on_commit_log_dispatch` (source lines 429-439): dispatcher
invocations are collected into a list. -/
def on_commit_log_dispatch (dispatched : List DispatchRequest) (request : DispatchRequest)
    (do_dispatch _is_recover is_file_end : Bool) : List DispatchRequest :=
  if do_dispatch ∧ ¬is_file_end then dispatched ++ [request] else dispatched

/-- Outcome of the normal-recovery frame loop. -/
structure NormalLoopOut where
  process_offset : Nat
  mapped_file_offset : Nat
  last_valid_msg_phy_offset : Nat
  dispatched : List DispatchRequest
deriving DecidableEq, Repr

/-- Outcome of the abnormal-recovery frame loop. -/
structure AbnormalLoopOut where
  process_offset : Nat
  mapped_file_offset : Nat
  last_valid_msg_phy_offset : Nat
  last_confirm_valid_msg_phy_offset : Nat
  dispatched : List DispatchRequest
deriving DecidableEq, Repr

/-- Embedding of the frame loop of `recover_normally` (source lines 479-526);
`do_dispatch` is `false` there, which is inlined at the
`on_commit_log_dispatch` call sites. -/
def recover_loop_normal (check_crc_on_recover check_dup_info : Bool)
    (message_store_config : MessageStoreConfig)
    (remaining : List MappedFileModel) (mapped_file : MappedFileModel)
    (current_pos mapped_file_offset process_offset last_valid : Nat)
    (dispatched : List DispatchRequest) : Option NormalLoopOut :=
  match h1 : get_simple_message_bytes mapped_file current_pos with
  | (none, _) => some ⟨process_offset, mapped_file_offset, last_valid, dispatched⟩
  | (some msg_bytes, size) =>
    match check_message_and_return_size msg_bytes check_crc_on_recover check_dup_info true
        message_store_config with
    | none => none
    | some dispatch_request =>
      if dispatch_request.success = true ∧ dispatch_request.msg_size > 0 then
        recover_loop_normal check_crc_on_recover check_dup_info message_store_config
          remaining mapped_file (current_pos + size)
          (mapped_file_offset + dispatch_request.msg_size.toNat) process_offset
          (process_offset + mapped_file_offset)
          (on_commit_log_dispatch dispatched dispatch_request false true false)
      else if dispatch_request.success = true ∧ dispatch_request.msg_size = 0 then
        let dispatched := on_commit_log_dispatch dispatched dispatch_request false true true
        match remaining with
        | [] => some ⟨process_offset, mapped_file_offset, last_valid, dispatched⟩
        | mf2 :: rest =>
          recover_loop_normal check_crc_on_recover check_dup_info message_store_config
            rest mf2 0 0 mf2.file_from_offset last_valid dispatched
      else some ⟨process_offset, mapped_file_offset, last_valid, dispatched⟩
termination_by (remaining.length, mapped_file.bytes.length - current_pos)
decreasing_by
  all_goals first
  | (apply Prod.Lex.left
     simp only [List.length_cons]
     omega)
  | (apply Prod.Lex.right
     have h2 : 0 < size ∧ current_pos < mapped_file.bytes.length := by
       unfold get_simple_message_bytes mf_get_bytes at h1
       split at h1
       · simp_all
       · rename_i inner heq
         dsimp only at h1
         split at h1
         · simp_all
         · rename_i hgt
           rw [Prod.mk.injEq] at h1
           obtain ⟨-, hsz⟩ := h1
           split at heq
           · rename_i hlen
             constructor
             · omega
             · omega
           · simp_all
     omega)

/-- Embedding of the frame loop of `recover_abnormally` (source lines
633-698); `do_dispatch` is `true` there and is inlined at the call sites.
`confirm_offset` is the (unchanging) value of `get_confirm_offset` consulted
in duplication/controller mode; its `none` (controller-mode panic) aborts
the loop exactly when it is consulted. -/
def recover_loop_abnormal (check_crc_on_recover check_dup_info : Bool)
    (message_store_config : MessageStoreConfig) (dup_or_controller : Bool)
    (confirm_offset : Option Int)
    (remaining : List MappedFileModel) (mapped_file : MappedFileModel)
    (current_pos mapped_file_offset process_offset last_valid last_confirm : Nat)
    (dispatched : List DispatchRequest) : Option AbnormalLoopOut :=
  match h1 : get_simple_message_bytes mapped_file current_pos with
  | (none, _) =>
    some ⟨process_offset, mapped_file_offset, last_valid, last_confirm, dispatched⟩
  | (some msg_bytes, size) =>
    match check_message_and_return_size msg_bytes check_crc_on_recover check_dup_info true
        message_store_config with
    | none => none
    | some dispatch_request =>
      if dispatch_request.success = true ∧ dispatch_request.msg_size > 0 then
        let last_valid := process_offset + mapped_file_offset
        let mapped_file_offset := mapped_file_offset + dispatch_request.msg_size.toNat
        if dup_or_controller then
          match confirm_offset with
          | none => none
          | some confirm =>
            if dispatch_request.commit_log_offset + (size : Int) ≤ confirm then
              recover_loop_abnormal check_crc_on_recover check_dup_info message_store_config
                dup_or_controller confirm_offset remaining mapped_file (current_pos + size)
                mapped_file_offset process_offset last_valid
                (toU64 dispatch_request.commit_log_offset + size)
                (on_commit_log_dispatch dispatched dispatch_request true true false)
            else
              recover_loop_abnormal check_crc_on_recover check_dup_info message_store_config
                dup_or_controller confirm_offset remaining mapped_file (current_pos + size)
                mapped_file_offset process_offset last_valid last_confirm dispatched
        else
          recover_loop_abnormal check_crc_on_recover check_dup_info message_store_config
            dup_or_controller confirm_offset remaining mapped_file (current_pos + size)
            mapped_file_offset process_offset last_valid last_confirm
            (on_commit_log_dispatch dispatched dispatch_request true true false)
      else if dispatch_request.success = true ∧ dispatch_request.msg_size = 0 then
        let dispatched := on_commit_log_dispatch dispatched dispatch_request true true true
        match remaining with
        | [] =>
          some ⟨process_offset, mapped_file_offset, last_valid, last_confirm, dispatched⟩
        | mf2 :: rest =>
          recover_loop_abnormal check_crc_on_recover check_dup_info message_store_config
            dup_or_controller confirm_offset rest mf2 0 0 mf2.file_from_offset last_valid
            last_confirm dispatched
      else some ⟨process_offset, mapped_file_offset, last_valid, last_confirm, dispatched⟩
termination_by (remaining.length, mapped_file.bytes.length - current_pos)
decreasing_by
  all_goals first
  | (apply Prod.Lex.left
     simp only [List.length_cons]
     omega)
  | (apply Prod.Lex.right
     have h2 : 0 < size ∧ current_pos < mapped_file.bytes.length := by
       unfold get_simple_message_bytes mf_get_bytes at h1
       split at h1
       · simp_all
       · rename_i inner heq
         dsimp only at h1
         split at h1
         · simp_all
         · rename_i hgt
           rw [Prod.mk.injEq] at h1
           obtain ⟨-, hsz⟩ := h1
           split at heq
           · rename_i hlen
             constructor
             · omega
             · omega
           · simp_all
     omega)

/-- Recorded effects of one recovery run: the dispatcher invocations, the
final `processOffset`, the confirm offset written by `set_confirm_offset`,
the flushed/committed positions, the physical and logical truncations and
whether the consume-queue store was destroyed (empty-directory branch). -/
structure RecoverResult where
  dispatched : List DispatchRequest
  process_offset : Nat
  confirm_offset_set : Option Int
  flushed_where : Int
  committed_where : Int
  truncated_to : Option Int
  truncate_dirty_logic_files : Option Int
  consume_queue_destroyed : Bool
deriving DecidableEq, Repr

/-- Embedding of `recover_normally` (source lines 450-559). -/
def recover_normally (cl : CommitLog) (max_phy_offset_of_consume_queue : Int) :
    Option RecoverResult :=
  let check_crc_on_recover := cl.message_store_config.check_crc_on_recover
  let check_dup_info := cl.message_store_config.duplication_enable
  match cl.segments with
  | [] =>
    some { dispatched := [], process_offset := 0, confirm_offset_set := none,
           flushed_where := 0, committed_where := 0, truncated_to := none,
           truncate_dirty_logic_files := none, consume_queue_destroyed := true }
  | _ :: _ =>
    let index := if cl.segments.length ≤ 3 then 0 else cl.segments.length - 3
    match cl.segments.drop index with
    | [] => none
    | mapped_file :: rest =>
      match cl.get_confirm_offset with
      | none => none
      | some confirm =>
        match recover_loop_normal check_crc_on_recover check_dup_info
            cl.message_store_config rest mapped_file 0 0 mapped_file.file_from_offset
            (toU64 confirm) [] with
        | none => none
        | some out =>
          let process_offset := out.process_offset + out.mapped_file_offset
          if cl.broker_config.enable_controller_mode then none
          else
            some { dispatched := out.dispatched,
                   process_offset := process_offset,
                   confirm_offset_set := some (toSigned64 out.last_valid_msg_phy_offset),
                   flushed_where := (process_offset : Int),
                   committed_where := (process_offset : Int),
                   truncated_to := some (process_offset : Int),
                   truncate_dirty_logic_files :=
                     if toU64 max_phy_offset_of_consume_queue ≥ process_offset then
                       some (process_offset : Int)
                     else none,
                   consume_queue_destroyed := false }

/-- Embedding of the backwards segment scan of `recover_abnormally` (source
lines 606-617): the argument is one past the index under scrutiny, the result
the `i32` index variable after the loop (`-1` when nothing matched); `none`
models a panic inside the predicate. -/
def find_matched_recover_index (message_store_config : MessageStoreConfig)
    (store_checkpoint : StoreCheckpoint) (segments : List MappedFileModel) :
    Nat → Option Int
  | 0 => some (-1)
  | n + 1 =>
    match segments[n]? with
    | none => none
    | some mapped_file =>
      match is_mapped_file_matched_recover message_store_config mapped_file store_checkpoint with
      | none => none
      | some true => some (n : Int)
      | some false => find_matched_recover_index message_store_config store_checkpoint segments n

/-- Embedding of `recover_abnormally` (source lines 592-739). -/
def recover_abnormally (cl : CommitLog) (max_phy_offset_of_consume_queue : Int) :
    Option RecoverResult :=
  let check_crc_on_recover := cl.message_store_config.check_crc_on_recover
  let check_dup_info := cl.message_store_config.duplication_enable
  match cl.segments with
  | [] =>
    some { dispatched := [], process_offset := 0, confirm_offset_set := none,
           flushed_where := 0, committed_where := 0, truncated_to := none,
           truncate_dirty_logic_files := none, consume_queue_destroyed := true }
  | _ :: _ =>
    match find_matched_recover_index cl.message_store_config cl.store_checkpoint cl.segments
        cl.segments.length with
    | none => none
    | some idx =>
      let index : Nat := if idx ≤ 0 then 0 else idx.toNat
      match cl.segments.drop index with
      | [] => none
      | mapped_file :: rest =>
        let dup_or_controller := cl.message_store_config.duplication_enable ||
          cl.broker_config.enable_controller_mode
        match recover_loop_abnormal check_crc_on_recover check_dup_info
            cl.message_store_config dup_or_controller cl.get_confirm_offset rest mapped_file
            0 0 mapped_file.file_from_offset mapped_file.file_from_offset
            mapped_file.file_from_offset [] with
        | none => none
        | some out =>
          let process_offset := out.process_offset + out.mapped_file_offset
          if cl.broker_config.enable_controller_mode then none
          else
            some { dispatched := out.dispatched,
                   process_offset := process_offset,
                   confirm_offset_set := some (toSigned64 out.last_valid_msg_phy_offset),
                   flushed_where := (process_offset : Int),
                   committed_where := (process_offset : Int),
                   truncated_to := some (process_offset : Int),
                   truncate_dirty_logic_files :=
                     if toU64 max_phy_offset_of_consume_queue ≥ process_offset then
                       some (process_offset : Int)
                     else none,
                   consume_queue_destroyed := false }

/-! ## Claim-level helper definitions and concrete instances -/

/-- Tail of an encoded frame after the `totalSize` and `magicCode` fields
(the suffix of `encodeFrameRaw` handed to `check_message_body`). -/
def frameTail (m : FrameMsg) : List Nat :=
  putI32 m.body_crc ++
  putI32 m.queue_id ++
  putI32 m.flag ++
  putI64 m.queue_offset ++
  putI64 m.physic_offset ++
  putI32 m.sys_flag ++
  putI64 m.born_timestamp ++
  m.born_host ++
  putI64 m.store_timestamp ++
  m.store_host ++
  putI32 m.reconsume_times ++
  putI64 m.prepared_transaction_offset ++
  putI32 (m.body.length : Int) ++
  m.body ++
  putTopicLength m.version m.topic.length ++
  m.topic ++
  putI16 (m.properties.length : Int) ++
  m.properties

/-- Suffix of an encoded frame from the topic-length field on (the input of
`check_message_topic_props` after the prefix and body are consumed). -/
def frameTopicPropsBytes (m : FrameMsg) : List Nat :=
  putTopicLength m.version m.topic.length ++
  m.topic ++
  putI16 (m.properties.length : Int) ++
  m.properties

/-- Magic-code field of a raw frame (bytes 4 to 8, big-endian signed). -/
def frame_magic_code (bytes : List Nat) : Int :=
  toSigned32 (beNat ((bytes.drop 4).take 4))

/-- Total-size field of a raw frame (bytes 0 to 4, big-endian signed). -/
def frame_total_size (bytes : List Nat) : Int :=
  toSigned32 (beNat (bytes.take 4))

/-- Success of the dup-info well-formedness test the decoder runs when
`checkDupInfo` is set. Because of the source slip at line 864 the map under
test is parsed from the topic bytes. -/
def dup_info_ok (topic_bytes : List Nat) : Bool :=
  match (string_to_message_properties topic_bytes).lookup DUP_INFO with
  | none => false
  | some content => (splitOnByte 95 content).length = 2

/-- Plain store configuration for concrete runs: duplication off, CRC checked
on recover, no rocksdb, async master. -/
def plainStoreConfig : MessageStoreConfig where
  duplication_enable := false
  enabled_append_prop_crc := false
  auto_message_version_on_topic_len := true
  force_verify_prop_crc := false
  check_crc_on_recover := true
  message_index_enable := true
  message_index_safe := false
  enable_rocksdb_store := false
  broker_role := BrokerRole.AsyncMaster
  in_sync_replicas := 1
  mapped_file_size_commit_log := 1024
  max_message_size := 65536

/-- Store configuration with duplication mode enabled. -/
def dupStoreConfig : MessageStoreConfig :=
  { plainStoreConfig with duplication_enable := true }

/-- Plain broker configuration (no controller mode, no slave acting master). -/
def plainBrokerConfig : BrokerConfig where
  enable_controller_mode := false
  enable_slave_acting_master := false
  duplication_enable := false

/-- Zeroed checkpoint. -/
def checkpoint0 : StoreCheckpoint where
  min_timestamp := 0
  min_timestamp_index := 0
  confirm_phy_offset := 0

/-- CommitLog state with no segments (store duplication mode on, so that the
duplication-mode statements can be exercised on it). -/
def emptyCommitLog : CommitLog where
  message_store_config := dupStoreConfig
  broker_config := plainBrokerConfig
  enabled_append_prop_crc := false
  confirm_offset := 0
  store_checkpoint := checkpoint0
  segments := []
  topic_config_table := fun _ => none
  queue_offset_table := fun _ => 0

/-- CommitLog state whose single (first) segment is not available. -/
def oneSegCommitLog : CommitLog :=
  { emptyCommitLog with
    segments := [{ file_from_offset := 1024, wrote_position := 0, available := false,
                   bytes := [] }] }

/-- Empty mapped file. -/
def emptyMappedFile : MappedFileModel where
  file_from_offset := 0
  wrote_position := 0
  available := true
  bytes := []

/-- Concrete frame used for the round-trip run: topic `T`, empty body, one
property `KEYS = a`. -/
def rtMsg : FrameMsg where
  version := MessageVersion.V1
  body_crc := 0
  queue_id := 3
  flag := 0
  queue_offset := 5
  physic_offset := 0
  sys_flag := 0
  born_timestamp := 11
  born_host := [127, 0, 0, 1, 0, 0, 31, 144]
  store_timestamp := 22
  store_host := [127, 0, 0, 1, 0, 0, 39, 16]
  reconsume_times := 0
  prepared_transaction_offset := 0
  body := []
  topic := [84]
  properties := PROPERTY_KEYS ++ [1, 97, 2]

/-- Concrete frame with a one-byte body and a `bodyCrc` field that does not
match the CRC32 of the body. -/
def badCrcMsg : FrameMsg :=
  { rtMsg with body := [1], body_crc := 0, properties := [] }

/-- Concrete broker message without a body. -/
def noBodyMsg : MessageExtBrokerInner where
  topic := [84]
  queue_id := 0
  sys_flag := 0
  flag := 0
  born_timestamp := 0
  born_host := [127, 0, 0, 1, 0, 0, 31, 144]
  born_host_ipv6 := false
  store_host := [127, 0, 0, 1, 0, 0, 39, 16]
  store_host_ipv6 := false
  reconsume_times := 0
  prepared_transaction_offset := 0
  body := none
  body_crc := 0
  store_timestamp := 0
  queue_offset := 0
  properties := []
  version := MessageVersion.V1
  wait_store_msg_ok := true

/-- Concrete transaction-commit broker message with a body. -/
def commitMsg : MessageExtBrokerInner :=
  { noBodyMsg with body := some [1, 2], sys_flag := TRANSACTION_COMMIT_TYPE }

/-- Zeroed per-queue offset table. -/
def tableZero : List Nat × Int → Int := fun _ => 0

/-- Empty topic-config table. -/
def tctNone : List Nat → Option CQType := fun _ => none

/-- Blank end-of-segment sentinel frame bytes. -/
def blankFrameBytes : List Nat := putI32 24 ++ putI32 BLANK_MAGIC_CODE

/-- Frame bytes carrying an unknown magic code. -/
def badMagicFrameBytes : List Nat := putI32 24 ++ putI32 77

/-- Recovery outcome of the empty-directory branch. -/
def emptyRecoverResult : RecoverResult where
  dispatched := []
  process_offset := 0
  confirm_offset_set := none
  flushed_where := 0
  committed_where := 0
  truncated_to := none
  truncate_dirty_logic_files := none
  consume_queue_destroyed := true

/-! ## Arithmetic and reader lemmas -/

theorem beBytes_length (k n : Nat) : (beBytes k n).length = k := by
  induction k generalizing n with
  | zero => rfl
  | succ k ih => simp [beBytes, ih]

theorem beNat_beBytes (k n : Nat) (h : n < 256 ^ k) : beNat (beBytes k n) = n := by
  induction k generalizing n with
  | zero =>
    simp only [beBytes, beNat, List.foldl_nil]
    omega
  | succ k ih =>
    have hdiv : n / 256 < 256 ^ k := by
      rw [Nat.div_lt_iff_lt_mul (by norm_num)]
      calc n < 256 ^ (k + 1) := h
        _ = 256 ^ k * 256 := by ring
    have hk := ih (n / 256) hdiv
    simp only [beBytes, beNat, List.foldl_append, List.foldl_cons, List.foldl_nil]
    simp only [beNat] at hk
    rw [hk]
    omega

theorem toU32_lt (v : Int) : toU32 v < 2 ^ 32 := by
  unfold toU32
  omega

theorem toU16_lt (v : Int) : toU16 v < 2 ^ 16 := by
  unfold toU16
  omega

theorem toU64_lt (v : Int) : toU64 v < 2 ^ 64 := by
  unfold toU64
  omega

theorem toSigned32_toU32 (v : Int) (h1 : -2 ^ 31 ≤ v) (h2 : v < 2 ^ 31) :
    toSigned32 (toU32 v) = v := by
  unfold toSigned32 toU32
  split <;> omega

theorem toSigned64_toU64 (v : Int) (h1 : -2 ^ 63 ≤ v) (h2 : v < 2 ^ 63) :
    toSigned64 (toU64 v) = v := by
  unfold toSigned64 toU64
  split <;> omega

theorem toSigned16_toU16 (v : Int) (h1 : -2 ^ 15 ≤ v) (h2 : v < 2 ^ 15) :
    toSigned16 (toU16 v) = v := by
  unfold toSigned16 toU16
  split <;> omega

theorem toU32_toSigned32_toU32 (v : Int) : toU32 (toSigned32 (toU32 v)) = toU32 v := by
  unfold toSigned32 toU32
  split <;> omega

theorem takeBytes_exact (n : Nat) (l r : List Nat) (h : l.length = n) :
    takeBytes n (l ++ r) = some (l, r) := by
  subst h
  simp [takeBytes, List.take_left, List.drop_left]

theorem getI32_putI32 (v : Int) (r : List Nat) :
    getI32 (putI32 v ++ r) = some (toSigned32 (toU32 v), r) := by
  unfold getI32 putI32
  rw [takeBytes_exact _ _ r (beBytes_length 4 _)]
  dsimp only
  rw [beNat_beBytes 4 _ (by have := toU32_lt v; norm_num; omega)]

theorem getI64_putI64 (v : Int) (r : List Nat) :
    getI64 (putI64 v ++ r) = some (toSigned64 (toU64 v), r) := by
  unfold getI64 putI64
  rw [takeBytes_exact _ _ r (beBytes_length 8 _)]
  dsimp only
  rw [beNat_beBytes 8 _ (by have := toU64_lt v; norm_num; omega)]

theorem getI16_putI16 (v : Int) (r : List Nat) :
    getI16 (putI16 v ++ r) = some (toSigned16 (toU16 v), r) := by
  unfold getI16 putI16
  rw [takeBytes_exact _ _ r (beBytes_length 2 _)]
  dsimp only
  rw [beNat_beBytes 2 _ (by have := toU16_lt v; norm_num; omega)]

theorem takeBytes_all (l : List Nat) : takeBytes l.length l = some (l, []) := by
  simp [takeBytes]

theorem toSigned16_ofNat (n : Nat) (h : n < 2 ^ 15) : toSigned16 n = (n : Int) := by
  unfold toSigned16
  split <;> omega

theorem beNat_single (b : Nat) : beNat [b] = b % 256 := by
  simp [beNat]

theorem get_topic_length_put (v : MessageVersion) (tl : Nat) (r : List Nat)
    (h1 : v = MessageVersion.V1 → tl < 256) (h2 : v = MessageVersion.V2 → tl < 2 ^ 15) :
    get_topic_length v (putTopicLength v tl ++ r) = some (tl, r) := by
  cases v with
  | V1 =>
    have htl := h1 rfl
    unfold get_topic_length putTopicLength getU8
    rw [takeBytes_exact 1 [tl % 256] r (by simp)]
    dsimp only
    rw [beNat_single]
    have hmm : tl % 256 % 256 = tl := by omega
    rw [hmm]
  | V2 =>
    have htl := h2 rfl
    unfold get_topic_length putTopicLength getI16
    rw [takeBytes_exact 2 _ r (beBytes_length 2 _)]
    dsimp only
    rw [beNat_beBytes 2 _ (by norm_num; omega)]
    rw [toSigned16_ofNat tl htl]
    simp

theorem magic_v1_roundtrip : toSigned32 (toU32 MESSAGE_MAGIC_CODE) = MESSAGE_MAGIC_CODE := by
  unfold toSigned32 toU32 MESSAGE_MAGIC_CODE
  split <;> omega

theorem magic_v2_roundtrip : toSigned32 (toU32 MESSAGE_MAGIC_CODE_V2) = MESSAGE_MAGIC_CODE_V2 := by
  unfold toSigned32 toU32 MESSAGE_MAGIC_CODE_V2
  split <;> omega

theorem encodeFrameRaw_eq (t : Int) (m : FrameMsg) :
    encodeFrameRaw t m = putI32 t ++ (putI32 (magicOfVersion m.version) ++ frameTail m) := by
  unfold encodeFrameRaw frameTail
  simp only [List.append_assoc]

theorem decode_encodeFrameRaw (t : Int) (m : FrameMsg) (c1 c2 c3 : Bool)
    (cfg : MessageStoreConfig) :
    check_message_and_return_size (encodeFrameRaw t m) c1 c2 c3 cfg =
      check_message_body (toSigned32 (toU32 t)) m.version (frameTail m) c1 c2 c3 cfg := by
  rw [encodeFrameRaw_eq]
  unfold check_message_and_return_size
  rw [getI32_putI32]
  dsimp only
  rw [getI32_putI32]
  dsimp only
  cases h : m.version with
  | V1 =>
    rw [show magicOfVersion MessageVersion.V1 = MESSAGE_MAGIC_CODE from rfl, magic_v1_roundtrip]
    norm_num [MESSAGE_MAGIC_CODE, MESSAGE_MAGIC_CODE_V2]
  | V2 =>
    rw [show magicOfVersion MessageVersion.V2 = MESSAGE_MAGIC_CODE_V2 from rfl, magic_v2_roundtrip]
    norm_num [MESSAGE_MAGIC_CODE, MESSAGE_MAGIC_CODE_V2]

theorem decode_encodeFrameRaw_in_range (t : Int) (m : FrameMsg) (c1 c2 c3 : Bool)
    (cfg : MessageStoreConfig) (h1 : -2 ^ 31 ≤ t) (h2 : t < 2 ^ 31) :
    check_message_and_return_size (encodeFrameRaw t m) c1 c2 c3 cfg =
      check_message_body t m.version (frameTail m) c1 c2 c3 cfg := by
  rw [decode_encodeFrameRaw, toSigned32_toU32 t h1 h2]

theorem check_message_body_crc_mismatch (t : Int) (m : FrameMsg) (c2 : Bool)
    (cfg : MessageStoreConfig) (hv : m.Valid) (hbody : m.body ≠ [])
    (hforce : cfg.force_verify_prop_crc = false)
    (hcrc : crc32 m.body ≠ toU32 m.body_crc) :
    check_message_body t m.version (frameTail m) true c2 true cfg =
      some { DispatchRequest.dfault with msg_size := -1, success := false } := by
  obtain ⟨hs1, hs2, hbh, hsh, hblen, _, _, _⟩ := hv
  have hsys : toSigned32 (toU32 m.sys_flag) = m.sys_flag := toSigned32_toU32 _ hs1 hs2
  have hbh2 : ∀ r, takeBytes (if Int.land m.sys_flag BORNHOST_V6_FLAG = 0 then 8 else 20)
      (m.born_host ++ r) = some (m.born_host, r) := fun r => takeBytes_exact _ _ _ hbh
  have hsh2 : ∀ r, takeBytes (if Int.land m.sys_flag STOREHOSTADDRESS_V6_FLAG = 0 then 8 else 20)
      (m.store_host ++ r) = some (m.store_host, r) := fun r => takeBytes_exact _ _ _ hsh
  have hlen : toSigned32 (toU32 ((m.body.length : Nat) : Int)) = ((m.body.length : Nat) : Int) :=
    toSigned32_toU32 _ (by omega) (by exact_mod_cast hblen)
  have hbd : ∀ r, takeBytes m.body.length (m.body ++ r) = some (m.body, r) :=
    fun r => takeBytes_exact _ _ _ rfl
  have hpos : (0 : Int) < ((m.body.length : Nat) : Int) := by
    have := List.length_pos.mpr hbody
    exact_mod_cast this
  unfold check_message_body frameTail
  simp only [List.append_assoc, getI32_putI32, getI64_putI64, hsys, hbh2, hsh2, hlen, hbd,
    Int.toNat_natCast, hforce, hpos, toU32_toSigned32_toU32, hcrc, gt_iff_lt, if_true,
    if_false, ne_eq, not_false_eq_true, ite_true, ite_false, Bool.not_false, and_self,
    Bool.true_and, true_and, and_true, not_true, not_false_iff, iff_false, eq_self_iff_true,
    Bool.false_eq_true]

theorem check_message_body_to_topic (t : Int) (m : FrameMsg) (c1 c2 : Bool)
    (cfg : MessageStoreConfig) (hv : m.Valid)
    (hcrc : c1 = true → cfg.force_verify_prop_crc = false → crc32 m.body = toU32 m.body_crc) :
    check_message_body t m.version (frameTail m) c1 c2 true cfg =
      check_message_topic_props t m.version m.sys_flag ((m.body.length : Nat) : Int)
        (toSigned32 (toU32 m.queue_id)) (toSigned64 (toU64 m.queue_offset))
        (toSigned64 (toU64 m.physic_offset)) (toSigned64 (toU64 m.store_timestamp))
        (toSigned64 (toU64 m.prepared_transaction_offset)) (frameTopicPropsBytes m) c2 := by
  obtain ⟨hs1, hs2, hbh, hsh, hblen, _, _, _⟩ := hv
  have hsys : toSigned32 (toU32 m.sys_flag) = m.sys_flag := toSigned32_toU32 _ hs1 hs2
  have hbh2 : ∀ r, takeBytes (if Int.land m.sys_flag BORNHOST_V6_FLAG = 0 then 8 else 20)
      (m.born_host ++ r) = some (m.born_host, r) := fun r => takeBytes_exact _ _ _ hbh
  have hsh2 : ∀ r, takeBytes (if Int.land m.sys_flag STOREHOSTADDRESS_V6_FLAG = 0 then 8 else 20)
      (m.store_host ++ r) = some (m.store_host, r) := fun r => takeBytes_exact _ _ _ hsh
  have hlen : toSigned32 (toU32 ((m.body.length : Nat) : Int)) = ((m.body.length : Nat) : Int) :=
    toSigned32_toU32 _ (by omega) (by exact_mod_cast hblen)
  have hbd : ∀ r, takeBytes m.body.length (m.body ++ r) = some (m.body, r) :=
    fun r => takeBytes_exact _ _ _ rfl
  have h0 : toSigned32 (toU32 0) = 0 := by
    unfold toSigned32 toU32
    split <;> omega
  by_cases hb : m.body = []
  · unfold check_message_body frameTail frameTopicPropsBytes
    simp only [List.append_assoc, getI32_putI32, getI64_putI64, hsys, hbh2, hsh2, hlen, hbd,
      Int.toNat_natCast, hb, List.length_nil, Nat.cast_zero, h0, gt_iff_lt, lt_irrefl,
      if_false, ite_false, List.nil_append, lt_self_iff_false]
  · have hpos : (0 : Int) < ((m.body.length : Nat) : Int) := by
      have := List.length_pos.mpr hb
      exact_mod_cast this
    cases c1 with
    | false =>
      unfold check_message_body frameTail frameTopicPropsBytes
      simp only [List.append_assoc, getI32_putI32, getI64_putI64, hsys, hbh2, hsh2, hlen, hbd,
        Int.toNat_natCast, hpos, if_true, ite_true, Bool.false_eq_true, false_and, if_false,
        ite_false]
    | true =>
      by_cases hf : cfg.force_verify_prop_crc
      · unfold check_message_body frameTail frameTopicPropsBytes
        simp only [List.append_assoc, getI32_putI32, getI64_putI64, hsys, hbh2, hsh2, hlen, hbd,
          Int.toNat_natCast, hpos, hf, if_true, ite_true, not_true, and_false, if_false,
          ite_false, and_true, true_and]
      · have hc := hcrc rfl (by simp [hf])
        unfold check_message_body frameTail frameTopicPropsBytes
        simp only [List.append_assoc, getI32_putI32, getI64_putI64, hsys, hbh2, hsh2, hlen, hbd,
          Int.toNat_natCast, hpos, hf, hc, toU32_toSigned32_toU32, if_true, ite_true,
          not_true, and_true, true_and, Bool.not_false, ne_eq, not_false_eq_true, if_false,
          ite_false, not_true_eq_false, Bool.false_eq_true]

theorem check_message_topic_props_mismatch (t : Int) (m : FrameMsg)
    (q qo po st pto : Int) (c2 : Bool) (hv : m.Valid)
    (hdup : c2 = true → 0 < m.properties.length → dup_info_ok m.topic = true)
    (hne : t ≠ cal_msg_length m.version m.sys_flag ((m.body.length : Nat) : Int)
        ((m.topic.length : Nat) : Int) ((m.properties.length : Nat) : Int)) :
    check_message_topic_props t m.version m.sys_flag ((m.body.length : Nat) : Int) q qo po st
      pto (frameTopicPropsBytes m) c2 =
      some { DispatchRequest.dfault with msg_size := t, success := false } := by
  obtain ⟨hs1, hs2, hbh, hsh, hblen, hv1, hv2, hplen⟩ := hv
  have htl : ∀ r, get_topic_length m.version (putTopicLength m.version m.topic.length ++ r) =
      some (m.topic.length, r) := fun r => get_topic_length_put _ _ _ hv1 hv2
  have htk : ∀ r, takeBytes m.topic.length (m.topic ++ r) = some (m.topic, r) :=
    fun r => takeBytes_exact _ _ _ rfl
  have hpl : toSigned16 (toU16 ((m.properties.length : Nat) : Int)) =
      ((m.properties.length : Nat) : Int) :=
    toSigned16_toU16 _ (by omega) (by exact_mod_cast hplen)
  have h016 : toSigned16 (toU16 0) = 0 := by
    unfold toSigned16 toU16
    split <;> omega
  by_cases hp : m.properties = []
  · simp only [hp, List.length_nil, Nat.cast_zero] at hne
    unfold check_message_topic_props frameTopicPropsBytes
    simp only [List.append_assoc, htl, htk, getI16_putI16, hpl, hp, List.length_nil,
      Nat.cast_zero, h016, gt_iff_lt, lt_irrefl, if_false, ite_false, lt_self_iff_false]
    rw [if_pos hne]
  · have hppos : (0 : Int) < ((m.properties.length : Nat) : Int) := by
      have := List.length_pos.mpr hp
      exact_mod_cast this
    have hptk : takeBytes m.properties.length m.properties = some (m.properties, []) :=
      takeBytes_all _
    cases c2 with
    | false =>
      unfold check_message_topic_props frameTopicPropsBytes
      simp only [List.append_assoc, htl, htk, getI16_putI16, hpl, hppos, gt_iff_lt, if_true,
        ite_true, Int.toNat_natCast, hptk, Bool.false_eq_true, if_false, ite_false]
      rw [if_pos hne]
    | true =>
      have hdup2 : dup_info_ok m.topic = true := by
        apply hdup rfl
        exact_mod_cast hppos
      unfold dup_info_ok at hdup2
      unfold check_message_topic_props frameTopicPropsBytes
      simp only [List.append_assoc, htl, htk, getI16_putI16, hpl, hppos, gt_iff_lt, if_true,
        ite_true, Int.toNat_natCast, hptk]
      match hlk : (string_to_message_properties m.topic).lookup DUP_INFO with
      | none =>
        rw [hlk] at hdup2
        dsimp only at hdup2
        cases hdup2
      | some content =>
        rw [hlk] at hdup2
        dsimp only at hdup2 ⊢
        have hsp : ¬((splitOnByte 95 content).length ≠ 2) := by simpa using hdup2
        rw [if_neg hsp]
        dsimp only
        rw [if_pos hne]

/-- Claim C7 (length self-check): for every frame whose prefix parses, when the
recomputed `readLength` from (version, sysFlag, bodyLen, topicLen,
propertiesLen) differs from the `totalSize` field of the frame, the decoder returns
`{success := false, msgSize := totalSize}`. -/
theorem C7_length_self_check (m : FrameMsg) (t : Int) (c1 c2 : Bool)
    (cfg : MessageStoreConfig) (hv : m.Valid)
    (ht1 : -2 ^ 31 ≤ t) (ht2 : t < 2 ^ 31)
    (hcrc : c1 = true → cfg.force_verify_prop_crc = false → crc32 m.body = toU32 m.body_crc)
    (hdup : c2 = true → 0 < m.properties.length → dup_info_ok m.topic = true)
    (hne : t ≠ cal_msg_length m.version m.sys_flag ((m.body.length : Nat) : Int)
        ((m.topic.length : Nat) : Int) ((m.properties.length : Nat) : Int)) :
    check_message_and_return_size (encodeFrameRaw t m) c1 c2 true cfg =
      some { DispatchRequest.dfault with msg_size := t, success := false } := by
  rw [decode_encodeFrameRaw_in_range t m c1 c2 true cfg ht1 ht2]
  rw [check_message_body_to_topic t m c1 c2 cfg hv hcrc]
  exact check_message_topic_props_mismatch t m _ _ _ _ _ c2 hv hdup hne

theorem C7_witness :
    rtMsg.Valid ∧
    (-2 ^ 31 ≤ (0 : Int)) ∧ ((0 : Int) < 2 ^ 31) ∧
    (false = true → plainStoreConfig.force_verify_prop_crc = false →
      crc32 rtMsg.body = toU32 rtMsg.body_crc) ∧
    (false = true → 0 < rtMsg.properties.length → dup_info_ok rtMsg.topic = true) ∧
    ((0 : Int) ≠ cal_msg_length rtMsg.version rtMsg.sys_flag ((rtMsg.body.length : Nat) : Int)
      ((rtMsg.topic.length : Nat) : Int) ((rtMsg.properties.length : Nat) : Int)) ∧
    check_message_and_return_size (encodeFrameRaw 0 rtMsg) false false true plainStoreConfig =
      some { DispatchRequest.dfault with msg_size := 0, success := false } :=
  ⟨by unfold FrameMsg.Valid; decide, by decide, by decide, by decide, by decide, by decide,
    C7_length_self_check rtMsg 0 false false plainStoreConfig
      (by unfold FrameMsg.Valid; decide) (by decide) (by decide) (by decide) (by decide)
      (by decide)⟩

/-- Claim C8 (CRC enforcement): for every valid frame decoded with
`checkCrc = true` (and per-property CRC not forced), a body whose CRC32
differs from the `bodyCrc` field of the frame makes the decoder return
`{success := false, msgSize := -1}`. -/
theorem C8_crc_enforcement (m : FrameMsg) (c2 : Bool) (cfg : MessageStoreConfig)
    (hv : m.Valid) (hbody : m.body ≠ [])
    (hforce : cfg.force_verify_prop_crc = false)
    (hcrc : crc32 m.body ≠ toU32 m.body_crc) :
    check_message_and_return_size (encodeFrame m) true c2 true cfg =
      some { DispatchRequest.dfault with msg_size := -1, success := false } := by
  unfold encodeFrame
  rw [decode_encodeFrameRaw]
  exact check_message_body_crc_mismatch _ m c2 cfg hv hbody hforce hcrc

theorem C8_witness :
    badCrcMsg.Valid ∧ badCrcMsg.body ≠ [] ∧
    plainStoreConfig.force_verify_prop_crc = false ∧
    crc32 badCrcMsg.body ≠ toU32 badCrcMsg.body_crc ∧
    check_message_and_return_size (encodeFrame badCrcMsg) true false true plainStoreConfig =
      some { DispatchRequest.dfault with msg_size := -1, success := false } :=
  ⟨by unfold FrameMsg.Valid; decide, by decide, by decide, by decide,
    C8_crc_enforcement badCrcMsg false plainStoreConfig (by unfold FrameMsg.Valid; decide)
      (by decide) (by decide) (by decide)⟩

/-- Claim C6 (decoder magic dispatch). -/
theorem C6_decoder_magic_dispatch (bytes : List Nat) (c1 c2 c3 : Bool)
    (cfg : MessageStoreConfig) (h8 : 8 ≤ bytes.length) :
    (frame_magic_code bytes = BLANK_MAGIC_CODE →
      check_message_and_return_size bytes c1 c2 c3 cfg =
        some { DispatchRequest.dfault with msg_size := 0, success := true }) ∧
    (frame_magic_code bytes ≠ MESSAGE_MAGIC_CODE →
      frame_magic_code bytes ≠ MESSAGE_MAGIC_CODE_V2 →
      frame_magic_code bytes ≠ BLANK_MAGIC_CODE →
      check_message_and_return_size bytes c1 c2 c3 cfg =
        some { DispatchRequest.dfault with msg_size := -1, success := false }) := by
  have h1 : getI32 bytes = some (frame_total_size bytes, bytes.drop 4) := by
    unfold getI32 takeBytes frame_total_size
    rw [if_pos (by omega)]
  have h2 : getI32 (bytes.drop 4) = some (frame_magic_code bytes, (bytes.drop 4).drop 4) := by
    unfold getI32 takeBytes frame_magic_code
    rw [if_pos (by simp; omega)]
  constructor
  · intro hb
    unfold check_message_and_return_size
    rw [h1]
    dsimp only
    rw [h2]
    dsimp only
    rw [hb]
    norm_num [MESSAGE_MAGIC_CODE, MESSAGE_MAGIC_CODE_V2, BLANK_MAGIC_CODE]
  · intro hm1 hm2 hm3
    unfold check_message_and_return_size
    rw [h1]
    dsimp only
    rw [h2]
    dsimp only
    rw [if_neg (by push_neg; exact ⟨hm1, hm2⟩), if_neg hm3]

theorem C6_witness :
    8 ≤ blankFrameBytes.length ∧
    ((frame_magic_code blankFrameBytes = BLANK_MAGIC_CODE →
      check_message_and_return_size blankFrameBytes false false false plainStoreConfig =
        some { DispatchRequest.dfault with msg_size := 0, success := true }) ∧
     (frame_magic_code blankFrameBytes ≠ MESSAGE_MAGIC_CODE →
      frame_magic_code blankFrameBytes ≠ MESSAGE_MAGIC_CODE_V2 →
      frame_magic_code blankFrameBytes ≠ BLANK_MAGIC_CODE →
      check_message_and_return_size blankFrameBytes false false false plainStoreConfig =
        some { DispatchRequest.dfault with msg_size := -1, success := false })) :=
  ⟨by decide,
    C6_decoder_magic_dispatch blankFrameBytes false false false plainStoreConfig (by decide)⟩

/-- Claim C1 (frame round-trip), evaluated at a concrete valid message with a
non-empty property set: the decode succeeds and `msgSize` equals the encoded
length, but the decoded `properties` differ from those of the message (the
source parses them from the topic bytes). -/
theorem C1_roundtrip_properties_divergence :
    (check_message_and_return_size (encodeFrame rtMsg) true false true plainStoreConfig).map
        (fun dr => (dr.success, dr.msg_size, dr.topic,
          decide (dr.properties_map = some (string_to_message_properties rtMsg.properties)))) =
      some (true, (((encodeFrame rtMsg).length : Nat) : Int), rtMsg.topic, false) := by
  decide

/-- Claim C9 (implicit precondition of put_message). -/
theorem C9_put_message_none_body (cl : CommitLog) (now : Int)
    (msg : MessageExtBrokerInner) (h : msg.body = none) :
    put_message_prepare cl now msg = none := by
  unfold put_message_prepare
  split <;> simp_all

theorem C9_witness :
    noBodyMsg.body = none ∧ put_message_prepare emptyCommitLog 0 noBodyMsg = none :=
  ⟨rfl, C9_put_message_none_body emptyCommitLog 0 noBodyMsg rfl⟩

/-- Claim C2 counterexample: a retried append that fails yields `UnknownError`,
not `CreateMappedFileFailed`. -/
theorem C2_counterexample :
    put_message_append_section true false true true AppendMessageStatus.EndOfFile
        AppendMessageStatus.UnknownError =
      (PutMessageStatus.UnknownError, 2) ∧
    PutMessageStatus.UnknownError ≠ PutMessageStatus.CreateMappedFileFailed := by
  decide

/-- Claim C2 (amended): on `EndOfFile` the engine allocates a new segment and
retries the append exactly once; a failed allocation returns
`CreateMappedFileFailed`, while a retried append that does not return `PutOk`
yields `UnknownError`. -/
theorem C2_end_of_file_rollover (have_last_file last_file_full alloc_ok rollover_alloc_ok : Bool)
    (retry_append : AppendMessageStatus)
    (hreach : have_last_file = true ∧ last_file_full = false ∨ alloc_ok = true) :
    (rollover_alloc_ok = false →
      put_message_append_section have_last_file last_file_full alloc_ok rollover_alloc_ok
        AppendMessageStatus.EndOfFile retry_append =
        (PutMessageStatus.CreateMappedFileFailed, 1)) ∧
    (rollover_alloc_ok = true →
      (put_message_append_section have_last_file last_file_full alloc_ok rollover_alloc_ok
        AppendMessageStatus.EndOfFile retry_append).2 = 2 ∧
      (retry_append = AppendMessageStatus.PutOk →
        put_message_append_section have_last_file last_file_full alloc_ok rollover_alloc_ok
          AppendMessageStatus.EndOfFile retry_append = (PutMessageStatus.PutOk, 2)) ∧
      (retry_append ≠ AppendMessageStatus.PutOk →
        put_message_append_section have_last_file last_file_full alloc_ok rollover_alloc_ok
          AppendMessageStatus.EndOfFile retry_append = (PutMessageStatus.UnknownError, 2))) := by
  cases have_last_file <;> cases last_file_full <;> cases alloc_ok <;> cases rollover_alloc_ok <;>
    cases retry_append <;> simp_all [put_message_append_section]

theorem C2_witness :
    (true = true ∧ false = false ∨ true = true) ∧
    ((false = false →
      put_message_append_section true false true false AppendMessageStatus.EndOfFile
        AppendMessageStatus.UnknownError = (PutMessageStatus.CreateMappedFileFailed, 1)) ∧
     (false = true →
      (put_message_append_section true false true false AppendMessageStatus.EndOfFile
        AppendMessageStatus.UnknownError).2 = 2 ∧
      (AppendMessageStatus.UnknownError = AppendMessageStatus.PutOk →
        put_message_append_section true false true false AppendMessageStatus.EndOfFile
          AppendMessageStatus.UnknownError = (PutMessageStatus.PutOk, 2)) ∧
      (AppendMessageStatus.UnknownError ≠ AppendMessageStatus.PutOk →
        put_message_append_section true false true false AppendMessageStatus.EndOfFile
          AppendMessageStatus.UnknownError = (PutMessageStatus.UnknownError, 2)))) :=
  ⟨Or.inl ⟨rfl, rfl⟩,
    C2_end_of_file_rollover true false true false AppendMessageStatus.UnknownError
      (Or.inl ⟨rfl, rfl⟩)⟩

/-- Claim C3 (per-queue offset advance). -/
theorem C3_per_queue_offset_advance (tct : List Nat → Option CQType)
    (table : List Nat × Int → Int) (status : PutMessageStatus)
    (msg : MessageExtBrokerInner) (h : status = PutMessageStatus.PutOk) :
    ((get_transaction_value msg.sys_flag = TRANSACTION_NOT_TYPE ∨
      get_transaction_value msg.sys_flag = TRANSACTION_COMMIT_TYPE) →
      put_message_post_process tct table status msg (msg.topic, msg.queue_id) =
        table (msg.topic, msg.queue_id) + get_message_num tct msg ∧
      (∀ k, k ≠ (msg.topic, msg.queue_id) →
        put_message_post_process tct table status msg k = table k)) ∧
    (¬(get_transaction_value msg.sys_flag = TRANSACTION_NOT_TYPE ∨
       get_transaction_value msg.sys_flag = TRANSACTION_COMMIT_TYPE) →
      put_message_post_process tct table status msg = table) ∧
    (¬(sys_flag_check msg.sys_flag INNER_BATCH_FLAG = true ∨
       get_cq_type tct msg = CQType.BatchCQ) →
      get_message_num tct msg = 1) ∧
    ((sys_flag_check msg.sys_flag INNER_BATCH_FLAG = true ∨
      get_cq_type tct msg = CQType.BatchCQ) →
      (∀ s, msg.get_property PROPERTY_INNER_NUM = some s →
        get_message_num tct msg = (parseI16 s).getD 1) ∧
      (msg.get_property PROPERTY_INNER_NUM = none → get_message_num tct msg = 1)) := by
  subst h
  refine ⟨?_, ?_, ?_, ?_⟩
  · intro htr
    constructor
    · simp [put_message_post_process, increase_offset, increase_queue_offset, htr]
    · intro k hk
      simp [put_message_post_process, increase_offset, increase_queue_offset, htr, hk]
  · intro htr
    simp [put_message_post_process, increase_offset, htr]
  · intro hbat
    simp only [get_message_num]
    rw [if_neg hbat]
  · intro hbat
    constructor
    · intro s hs
      simp only [get_message_num]
      rw [if_pos hbat, hs]
    · intro hs
      simp only [get_message_num]
      rw [if_pos hbat, hs]

theorem C3_witness :
    PutMessageStatus.PutOk = PutMessageStatus.PutOk ∧
    (get_transaction_value commitMsg.sys_flag = TRANSACTION_NOT_TYPE ∨
     get_transaction_value commitMsg.sys_flag = TRANSACTION_COMMIT_TYPE) ∧
    put_message_post_process tctNone tableZero PutMessageStatus.PutOk commitMsg
        (commitMsg.topic, commitMsg.queue_id) =
      tableZero (commitMsg.topic, commitMsg.queue_id) + get_message_num tctNone commitMsg :=
  ⟨rfl, by decide,
    ((C3_per_queue_offset_advance tctNone tableZero PutMessageStatus.PutOk commitMsg rfl).1
      (by decide)).1⟩

/-- Claim C10 (empty-log minimum offset). -/
theorem C10_min_offset (cl : CommitLog) :
    (cl.segments = [] → cl.get_min_offset = -1) ∧
    (∀ mf rest, cl.segments = mf :: rest → mf.available = false →
      cl.get_min_offset = cl.roll_next_file (mf.file_from_offset : Int)) := by
  constructor
  · intro h
    simp [CommitLog.get_min_offset, get_first_mapped_file, h]
  · intro mf rest h hav
    simp [CommitLog.get_min_offset, get_first_mapped_file, h, hav]

theorem C10_witness :
    emptyCommitLog.segments = [] ∧
    emptyCommitLog.get_min_offset = -1 ∧
    oneSegCommitLog.segments =
      { file_from_offset := 1024, wrote_position := 0, available := false,
        bytes := [] } :: [] ∧
    ({ file_from_offset := 1024, wrote_position := 0, available := false,
        bytes := [] } : MappedFileModel).available = false ∧
    oneSegCommitLog.get_min_offset = oneSegCommitLog.roll_next_file 1024 :=
  ⟨rfl, (C10_min_offset emptyCommitLog).1 rfl, rfl, rfl,
    (C10_min_offset oneSegCommitLog).2 _ _ rfl rfl⟩

/-- Claim C5 (segment trust test). -/
theorem C5_segment_trust (cfg : MessageStoreConfig) (mf : MappedFileModel)
    (cp : StoreCheckpoint) (hrocks : cfg.enable_rocksdb_store = false) :
    is_mapped_file_matched_recover cfg mf cp = some true ↔
      ((readI32At mf MESSAGE_MAGIC_CODE_POSITION = MESSAGE_MAGIC_CODE ∨
        readI32At mf MESSAGE_MAGIC_CODE_POSITION = MESSAGE_MAGIC_CODE_V2) ∧
       readI64At mf (4 + 4 + 4 + 4 + 4 + 8 + 8 + 4 + 8 +
         (if Int.land (readI32At mf SYSFLAG_POSITION) BORNHOST_V6_FLAG = 0 then 8 else 20)) ≠ 0 ∧
       (if cfg.message_index_enable ∧ cfg.message_index_safe then
          readI64At mf (4 + 4 + 4 + 4 + 4 + 8 + 8 + 4 + 8 +
            (if Int.land (readI32At mf SYSFLAG_POSITION) BORNHOST_V6_FLAG = 0 then 8 else 20)) ≤
            toSigned64 cp.min_timestamp_index
        else
          readI64At mf (4 + 4 + 4 + 4 + 4 + 8 + 8 + 4 + 8 +
            (if Int.land (readI32At mf SYSFLAG_POSITION) BORNHOST_V6_FLAG = 0 then 8 else 20)) ≤
            toSigned64 cp.min_timestamp)) := by
  unfold is_mapped_file_matched_recover
  simp only [hrocks, Bool.false_eq_true, if_false, ite_false]
  split_ifs <;> simp_all <;> tauto

theorem C5_witness :
    plainStoreConfig.enable_rocksdb_store = false ∧
    (is_mapped_file_matched_recover plainStoreConfig emptyMappedFile checkpoint0 = some true ↔
      ((readI32At emptyMappedFile MESSAGE_MAGIC_CODE_POSITION = MESSAGE_MAGIC_CODE ∨
        readI32At emptyMappedFile MESSAGE_MAGIC_CODE_POSITION = MESSAGE_MAGIC_CODE_V2) ∧
       readI64At emptyMappedFile (4 + 4 + 4 + 4 + 4 + 8 + 8 + 4 + 8 +
         (if Int.land (readI32At emptyMappedFile SYSFLAG_POSITION) BORNHOST_V6_FLAG = 0 then 8
          else 20)) ≠ 0 ∧
       (if plainStoreConfig.message_index_enable ∧ plainStoreConfig.message_index_safe then
          readI64At emptyMappedFile (4 + 4 + 4 + 4 + 4 + 8 + 8 + 4 + 8 +
            (if Int.land (readI32At emptyMappedFile SYSFLAG_POSITION) BORNHOST_V6_FLAG = 0 then 8
             else 20)) ≤ toSigned64 checkpoint0.min_timestamp_index
        else
          readI64At emptyMappedFile (4 + 4 + 4 + 4 + 4 + 8 + 8 + 4 + 8 +
            (if Int.land (readI32At emptyMappedFile SYSFLAG_POSITION) BORNHOST_V6_FLAG = 0 then 8
             else 20)) ≤ toSigned64 checkpoint0.min_timestamp))) :=
  ⟨rfl, C5_segment_trust plainStoreConfig emptyMappedFile checkpoint0 rfl⟩

theorem set_batch_size_preserves (pm : List (List Nat × List Nat)) (r r2 : DispatchRequest)
    (h : set_batch_size_if_needed pm r = some r2) :
    r2.msg_size = r.msg_size ∧ r2.success = r.success := by
  unfold set_batch_size_if_needed at h
  split at h
  · split at h
    · injection h with h2
      subst h2
      exact ⟨rfl, rfl⟩
    · cases h
  · injection h with h2
    subst h2
    exact ⟨rfl, rfl⟩

theorem check_message_topic_props_success_size (t : Int) (v : MessageVersion)
    (f bl q qo po st pto : Int) (bytes : List Nat) (c2 : Bool) (dr : DispatchRequest)
    (h : check_message_topic_props t v f bl q qo po st pto bytes c2 = some dr)
    (hs : dr.success = true) : dr.msg_size = t := by
  unfold check_message_topic_props at h
  iterate 20 (all_goals try (first | split at h | (dsimp only at h; split at h)))
  all_goals try exact Option.noConfusion h
  all_goals cases h
  all_goals try (simp at hs)
  all_goals rename_i dispatch_request heq
  all_goals obtain ⟨hp1, hp2⟩ := set_batch_size_preserves _ _ _ heq
  all_goals simpa using hp1

theorem check_message_body_success_size (t : Int) (v : MessageVersion) (bytes : List Nat)
    (c1 c2 c3 : Bool) (cfg : MessageStoreConfig) (dr : DispatchRequest)
    (h : check_message_body t v bytes c1 c2 c3 cfg = some dr)
    (hs : dr.success = true) : dr.msg_size = t := by
  unfold check_message_body at h
  iterate 25 (all_goals try (first | split at h | (dsimp only at h; split at h)))
  all_goals try exact Option.noConfusion h
  all_goals
    first
    | exact check_message_topic_props_success_size _ _ _ _ _ _ _ _ _ _ _ _ h hs
    | (cases h; simp at hs)

theorem decode_success_size (b : List Nat) (c1 c2 c3 : Bool) (cfg : MessageStoreConfig)
    (dr : DispatchRequest) (h : check_message_and_return_size b c1 c2 c3 cfg = some dr)
    (hs : dr.success = true) (hm : dr.msg_size ≠ 0) :
    dr.msg_size = frame_total_size b ∧ 4 ≤ b.length := by
  unfold check_message_and_return_size at h
  split at h
  · exact Option.noConfusion h
  · rename_i ts b1 heq1
    split at h
    · exact Option.noConfusion h
    · rename_i mg b2 heq2
      have hfacts : 4 ≤ b.length ∧ ts = frame_total_size b := by
        unfold frame_total_size
        unfold getI32 takeBytes at heq1
        by_cases hle : 4 ≤ b.length
        · rw [if_pos hle] at heq1
          dsimp only at heq1
          injection heq1 with heq1
          rw [Prod.mk.injEq] at heq1
          exact ⟨hle, heq1.1.symm⟩
        · rw [if_neg hle] at heq1
          exact Option.noConfusion heq1
      split at h
      · have hsz := check_message_body_success_size ts _ b2 c1 c2 c3 cfg dr h hs
        exact ⟨by rw [hsz, hfacts.2], hfacts.1⟩
      · split at h
        · cases h
          simp at hm
        · cases h
          simp at hs

theorem gsmb_decode_size (mf : MappedFileModel) (pos : Nat) (b : List Nat) (size : Nat)
    (c1 c2 c3 : Bool) (cfg : MessageStoreConfig) (dr : DispatchRequest)
    (h1 : get_simple_message_bytes mf pos = (some b, size))
    (h2 : check_message_and_return_size b c1 c2 c3 cfg = some dr)
    (hs : dr.success = true) (hm : dr.msg_size ≠ 0) :
    dr.msg_size = (size : Int) := by
  obtain ⟨hsz, h4⟩ := decode_success_size b c1 c2 c3 cfg dr h2 hs hm
  unfold get_simple_message_bytes mf_get_bytes at h1
  by_cases hp4 : pos + 4 ≤ mf.bytes.length
  · rw [if_pos hp4] at h1
    dsimp only at h1
    set s := toSigned32 (beNat ((mf.bytes.drop pos).take 4)) with hs_def
    by_cases hsle : s ≤ 0
    · rw [if_pos hsle] at h1
      simp at h1
    · rw [if_neg hsle] at h1
      rw [Prod.mk.injEq] at h1
      obtain ⟨hb, hsize⟩ := h1
      by_cases hfit : pos + s.toNat ≤ mf.bytes.length
      · rw [if_pos hfit] at hb
        injection hb with hb
        have hblen : b.length = s.toNat := by
          rw [← hb]
          simp only [List.length_take, List.length_drop]
          omega
        have h4s : 4 ≤ s.toNat := by omega
        have htake : b.take 4 = (mf.bytes.drop pos).take 4 := by
          rw [← hb, List.take_take]
          congr 1
          omega
        rw [hsz]
        unfold frame_total_size
        rw [htake, ← hs_def, ← hsize]
        omega
      · rw [if_neg hfit] at hb
        exact Option.noConfusion hb
  · rw [if_neg hp4] at h1
    simp at h1

theorem recover_loop_normal_dispatched (c1 c2 : Bool) (cfg : MessageStoreConfig)
    (remaining : List MappedFileModel) (mf : MappedFileModel)
    (pos mfo po lv : Nat) (disp : List DispatchRequest) :
    ∀ out, recover_loop_normal c1 c2 cfg remaining mf pos mfo po lv disp = some out →
      out.dispatched = disp := by
  induction remaining, mf, pos, mfo, po, lv, disp using recover_loop_normal.induct c1 c2 cfg with
  | case1 remaining mf pos mfo po lv disp snd h1 =>
    intro out h
    unfold recover_loop_normal at h
    rw [h1] at h
    dsimp only at h
    injection h with h
    rw [← h]
  | case2 remaining mf pos mfo po lv disp msg_bytes size h1 hdec =>
    intro out h
    unfold recover_loop_normal at h
    rw [h1] at h
    dsimp only at h
    rw [hdec] at h
    exact Option.noConfusion h
  | case3 remaining mf pos mfo po lv disp msg_bytes size h1 dr hdec hcond ih =>
    intro out h
    unfold recover_loop_normal at h
    rw [h1] at h
    dsimp only at h
    rw [hdec] at h
    dsimp only at h
    rw [if_pos hcond] at h
    have := ih out h
    simpa [on_commit_log_dispatch] using this
  | case4 mf pos mfo po lv disp msg_bytes size h1 dr hdec hncond hcond =>
    intro out h
    unfold recover_loop_normal at h
    rw [h1] at h
    dsimp only at h
    rw [hdec] at h
    dsimp only at h
    rw [if_neg hncond, if_pos hcond] at h
    dsimp only [on_commit_log_dispatch] at h
    injection h with h
    rw [← h]
    simp
  | case5 mf pos mfo po lv disp msg_bytes size h1 dr hdec hncond hcond disp1 mf2 rest ih =>
    intro out h
    unfold recover_loop_normal at h
    rw [h1] at h
    dsimp only at h
    rw [hdec] at h
    dsimp only at h
    rw [if_neg hncond, if_pos hcond] at h
    try dsimp only at h
    have := ih out h
    simpa [on_commit_log_dispatch] using this
  | case6 remaining mf pos mfo po lv disp msg_bytes size h1 dr hdec hncond hncond0 =>
    intro out h
    unfold recover_loop_normal at h
    rw [h1] at h
    dsimp only at h
    rw [hdec] at h
    dsimp only at h
    rw [if_neg hncond, if_neg hncond0] at h
    injection h with h
    rw [← h]

theorem recover_loop_abnormal_dispatched (c1 c2 : Bool) (cfg : MessageStoreConfig)
    (conf : Int) (remaining : List MappedFileModel) (mf : MappedFileModel)
    (pos mfo po lv lc : Nat) (disp : List DispatchRequest) :
    ∀ out,
      recover_loop_abnormal c1 c2 cfg true (some conf) remaining mf pos mfo po lv lc disp =
        some out →
      (∀ r ∈ disp, r.commit_log_offset + r.msg_size ≤ conf) →
      ∀ r ∈ out.dispatched, r.commit_log_offset + r.msg_size ≤ conf := by
  induction remaining, mf, pos, mfo, po, lv, lc, disp
    using recover_loop_abnormal.induct c1 c2 cfg true (some conf) with
  | case1 remaining mf pos mfo po lv lc disp snd h1 =>
    intro out h hd
    unfold recover_loop_abnormal at h
    rw [h1] at h
    try dsimp only at h
    injection h with h
    rw [← h]
    exact hd
  | case2 remaining mf pos mfo po lv lc disp msg_bytes size h1 hdec =>
    intro out h hd
    unfold recover_loop_abnormal at h
    rw [h1] at h
    try dsimp only at h
    rw [hdec] at h
    exact Option.noConfusion h
  | case3 remaining mf pos mfo po lv lc disp msg_bytes size h1 dr hdec hcond hdup hcn =>
    exact Option.noConfusion hcn
  | case4 remaining mf pos mfo po lv lc disp msg_bytes size h1 dr hdec hcond lv1 mfo1 hdup
      confirm hconf hle ih =>
    intro out h hd
    injection hconf with hconf
    subst hconf
    unfold recover_loop_abnormal at h
    rw [h1] at h
    try dsimp only at h
    rw [hdec] at h
    try dsimp only at h
    rw [if_pos hcond] at h
    try dsimp only at h
    rw [if_pos hle] at h
    refine ih out h ?_
    intro r hr
    have hoc : on_commit_log_dispatch disp dr true true false = disp ++ [dr] := by
      simp [on_commit_log_dispatch]
    rw [hoc] at hr
    have hr2 : r ∈ disp ∨ r = dr := by simpa using List.mem_append.mp hr
    rcases hr2 with hr2 | hr2
    · exact hd r hr2
    · subst hr2
      have hms : r.msg_size = (size : Int) :=
        gsmb_decode_size mf pos msg_bytes size c1 c2 true cfg r h1 hdec hcond.1
          (by have := hcond.2; omega)
      rw [hms]
      exact hle
  | case5 remaining mf pos mfo po lv lc disp msg_bytes size h1 dr hdec hcond lv1 mfo1 hdup
      confirm hconf hnle ih =>
    intro out h hd
    injection hconf with hconf
    subst hconf
    unfold recover_loop_abnormal at h
    rw [h1] at h
    try dsimp only at h
    rw [hdec] at h
    try dsimp only at h
    rw [if_pos hcond] at h
    try dsimp only at h
    rw [if_neg hnle] at h
    exact ih out h hd
  | case6 remaining mf pos mfo po lv lc disp msg_bytes size h1 dr hdec hcond lv1 mfo1
      hndup ih =>
    exact absurd rfl hndup
  | case7 mf pos mfo po lv lc disp msg_bytes size h1 dr hdec hncond hcond0 =>
    intro out h hd
    unfold recover_loop_abnormal at h
    rw [h1] at h
    try dsimp only at h
    rw [hdec] at h
    try dsimp only at h
    rw [if_neg hncond, if_pos hcond0] at h
    dsimp only [on_commit_log_dispatch] at h
    injection h with h
    rw [← h]
    simpa using hd
  | case8 mf pos mfo po lv lc disp msg_bytes size h1 dr hdec hncond hcond0 disp1 mf2 rest ih =>
    intro out h hd
    unfold recover_loop_abnormal at h
    rw [h1] at h
    try dsimp only at h
    rw [hdec] at h
    try dsimp only at h
    rw [if_neg hncond, if_pos hcond0] at h
    try dsimp only at h
    refine ih out h ?_
    simpa [on_commit_log_dispatch] using hd
  | case9 remaining mf pos mfo po lv lc disp msg_bytes size h1 dr hdec hncond hncond0 =>
    intro out h hd
    unfold recover_loop_abnormal at h
    rw [h1] at h
    try dsimp only at h
    rw [hdec] at h
    try dsimp only at h
    rw [if_neg hncond, if_neg hncond0] at h
    injection h with h
    rw [← h]
    exact hd

/-- Claim C4 (dispatch emission). -/
theorem C4_dispatch_emission (cl : CommitLog) (mpo : Int) (resN resA : RecoverResult)
    (c : Int) :
    (recover_normally cl mpo = some resN → resN.dispatched = []) ∧
    ((cl.message_store_config.duplication_enable = true ∨
      cl.broker_config.enable_controller_mode = true) →
      cl.get_confirm_offset = some c →
      recover_abnormally cl mpo = some resA →
      ∀ r ∈ resA.dispatched, r.commit_log_offset + r.msg_size ≤ c) := by
  constructor
  · intro h
    unfold recover_normally at h
    dsimp only at h
    split at h
    · injection h with h
      rw [← h]
    · split at h
      · exact Option.noConfusion h
      · rename_i mapped_file rest heqdrop
        split at h
        · exact Option.noConfusion h
        · rename_i confirm heqconf
          split at h
          · exact Option.noConfusion h
          · rename_i out heqloop
            split at h
            · exact Option.noConfusion h
            · injection h with h
              rw [← h]
              exact recover_loop_normal_dispatched _ _ _ _ _ _ _ _ _ _ out heqloop
  · intro hmode hconf h
    unfold recover_abnormally at h
    dsimp only at h
    split at h
    · injection h with h
      rw [← h]
      intro r hr
      simp at hr
    · split at h
      · exact Option.noConfusion h
      · rename_i idx heqidx
        split at h
        · exact Option.noConfusion h
        · rename_i mapped_file rest heqdrop
          split at h
          · exact Option.noConfusion h
          · rename_i out heqloop
            split at h
            · exact Option.noConfusion h
            · injection h with h
              rw [← h]
              have hdup : (cl.message_store_config.duplication_enable ||
                  cl.broker_config.enable_controller_mode) = true := by
                rcases hmode with hm | hm <;> simp [hm]
              rw [hdup, hconf] at heqloop
              exact recover_loop_abnormal_dispatched _ _ _ c _ _ _ _ _ _ _ _ out heqloop
                (by intro r hr; simp at hr)

theorem C4_witness :
    (emptyCommitLog.message_store_config.duplication_enable = true ∨
     emptyCommitLog.broker_config.enable_controller_mode = true) ∧
    emptyCommitLog.get_confirm_offset = some 0 ∧
    recover_normally emptyCommitLog 0 = some emptyRecoverResult ∧
    recover_abnormally emptyCommitLog 0 = some emptyRecoverResult ∧
    emptyRecoverResult.dispatched = [] ∧
    (∀ r ∈ emptyRecoverResult.dispatched, r.commit_log_offset + r.msg_size ≤ 0) :=
  ⟨Or.inl rfl, rfl, rfl, rfl,
    (C4_dispatch_emission emptyCommitLog 0 emptyRecoverResult emptyRecoverResult 0).1 rfl,
    (C4_dispatch_emission emptyCommitLog 0 emptyRecoverResult emptyRecoverResult 0).2
      (Or.inl rfl) rfl rfl⟩
